import Mathlib

set_option maxHeartbeats 1000000

/-!
Shallow embedding of the persistence layer of `src/src-tauri/src/lib.rs`
(a Tauri + rusqlite application storing scraped Naver/Coupang payments,
per-owner credentials, and a manual ledger with an audit history).

Modelling conventions, chosen once for the whole file:

* The SQLite database is one `DB` value holding each claim-relevant table as a
  list of rows, plus the AUTOINCREMENT counters of the two payment header
  tables.  Tables no claim touches (`tbl_setting`, `tbl_category`,
  `tbl_product_meta`, `tbl_product_tag`, `tbl_product_category`) are omitted.
* Bookkeeping columns that are only ever written with `datetime('now')` /
  `Utc::now()` and never read back by any modelled operation
  (`created_at`, `updated_at`) are omitted, as are UUID primary-key columns
  that are generated fresh and never used in a join or returned value
  (`tbl_credential.id`, `tbl_ledger_tag.id`, `tbl_ledger_history.id`, the
  AUTOINCREMENT ids of the two item tables).  Wall-clock readings that the
  code does use (`Utc::now()` compared against `password_expires_at`, the
  +30-day expiry) are passed in as explicit `String` parameters.
* `run_migrations` executes `PRAGMA foreign_keys = ON` and every foreign key
  of the schema is declared `ON DELETE CASCADE`; this embedding applies the
  declared referential actions: deleting a parent row deletes its children,
  and inserting a child row whose parent is absent fails the statement
  (which, inside a transaction, rolls the whole operation back).
* SQLite text comparison (BINARY collation = bytewise memcmp, which on the
  UTF-8 strings involved is codepoint-lexicographic order) is implemented by
  `strLt`; SQL `LIKE '%q%'` (ASCII-case-insensitive containment; `%`/`_`
  inside the query string itself are not modelled, no claim depends on them)
  by `likeContains`.  Rust's stable `sort_by` is implemented by the stable
  insertion sort `sortBy` — a stable sort's output is uniquely determined by
  the comparator, so any stable sort is extensionally the one Rust computes.
* Each `conn.execute`/`query_row` can fail environmentally (disk, lock);
  for the operations whose transactionality a claim discusses, the embedding
  threads a failure oracle `fail : Nat → Bool` giving the verdict for the
  operation's n-th SQL statement.  Functions wrapped in a rusqlite
  transaction return the original state when any statement fails (the
  dropped transaction rolls back); `save_account` and
  `update_account_credentials` open no transaction in the source, so each of
  their statements autocommits and a failure leaves the earlier statements'
  effects in place.
-/

/-- Bytewise-lexicographic strict order on lists of codepoints, mirroring
SQLite's BINARY collation used by every string comparison in the schema. -/
def lexLt : List Nat → List Nat → Bool
  | [], [] => false
  | [], _ :: _ => true
  | _ :: _, [] => false
  | a :: as, b :: bs => if a < b then true else if b < a then false else lexLt as bs

/-- SQLite string `<` (BINARY collation). -/
def strLt (a b : String) : Bool := lexLt (a.toList.map Char.toNat) (b.toList.map Char.toNat)

/-- Check that `p` is a prefix of `l` (helper for `LIKE`). -/
def seqStartsWith : List Char → List Char → Bool
  | [], _ => true
  | _ :: _, [] => false
  | a :: as, b :: bs => a == b && seqStartsWith as bs

/-- Check that `p` occurs contiguously inside `l` (helper for `LIKE`). -/
def seqContains (p : List Char) : List Char → Bool
  | [] => seqStartsWith p []
  | c :: rest => seqStartsWith p (c :: rest) || seqContains p rest

/-- SQL `col LIKE '%needle%'`: ASCII-case-insensitive containment. -/
def likeContains (needle hay : String) : Bool :=
  seqContains (needle.toList.map Char.toLower) (hay.toList.map Char.toLower)

/-- SQL `col LIKE 'needle%'`: ASCII-case-insensitive prefix test. -/
def likePrefix (needle hay : String) : Bool :=
  seqStartsWith (needle.toList.map Char.toLower) (hay.toList.map Char.toLower)

/-- Stable insertion of one element into a sorted list (`le x y` = x may
precede y). -/
def insertBy (le : α → α → Bool) (x : α) : List α → List α
  | [] => [x]
  | y :: ys => if le x y then x :: y :: ys else y :: insertBy le x ys

/-- Stable insertion sort; extensionally equal to Rust's stable `sort_by`
with the same comparator. -/
def sortBy (le : α → α → Bool) : List α → List α
  | [] => []
  | x :: xs => insertBy le x (sortBy le xs)

/-- Check for a duplicated element (models a `UNIQUE` violation among the
rows one statement batch inserts). -/
def hasDup : List String → Bool
  | [] => false
  | x :: xs => xs.contains x || hasDup xs

/-- SQL `LIMIT n`: negative `n` means no limit (SQLite semantics). -/
def sqlLimit (n : Int) (l : List α) : List α := if n < 0 then l else l.take n.toNat

/-- Rust's `as usize` cast of an `i64` (used by `search_products` before
`truncate`). -/
def usizeOfInt (i : Int) : Nat := (i % (2 ^ 64)).toNat

/-- Row of `tbl_user` (an Owner: one provider login). -/
structure UserRow where
  id : String
  provider : String
  aliasName : String
  curl : String
  deriving DecidableEq

/-- Row of `tbl_credential`; key `(user_id, key)` is UNIQUE. -/
structure CredRow where
  userId : String
  key : String
  value : String
  deriving DecidableEq

/-- Payload columns of `tbl_naver_payment` (all columns the Rust
`NaverPayment` input carries; `created_at`/`updated_at` omitted). -/
structure NaverPaymentFields where
  payId : String
  externalId : Option String
  serviceType : Option String
  statusCode : Option String
  statusText : Option String
  statusColor : Option String
  paidAt : String
  purchaserName : Option String
  merchantNo : Option String
  merchantName : String
  merchantTel : Option String
  merchantUrl : Option String
  merchantImageUrl : Option String
  merchantPaymentId : Option String
  subMerchantName : Option String
  subMerchantUrl : Option String
  subMerchantPaymentId : Option String
  isTaxType : Option Bool
  isOverseaTransfer : Option Bool
  productName : Option String
  productCount : Option Int
  productDetailUrl : Option String
  orderDetailUrl : Option String
  totalAmount : Int
  discountAmount : Option Int
  cupDepositAmount : Option Int
  restAmount : Option Int
  payEasycardAmount : Option Int
  payEasybankAmount : Option Int
  payRewardPointAmount : Option Int
  payChargePointAmount : Option Int
  payGiftcardAmount : Option Int
  benefitType : Option String
  hasPlusMembership : Option Bool
  benefitWaitingPeriod : Option Int
  benefitExpectedAmount : Option Int
  benefitAmount : Option Int
  isMembership : Option Bool
  isBranch : Option Bool
  isLastSubscriptionRound : Option Bool
  isCafeSafePayment : Option Bool
  merchantCountryCode : Option String
  merchantCountryName : Option String
  applicationCompleted : Option Bool
  deriving DecidableEq

/-- Fields of one Naver line item as supplied in the payload (the serde
`id` field is never used by the INSERT and is omitted). -/
structure NaverItemFields where
  lineNo : Int
  productName : String
  imageUrl : Option String
  infoUrl : Option String
  quantity : Int
  unitPrice : Option Int
  lineAmount : Option Int
  restAmount : Option Int
  memo : Option String
  deriving DecidableEq

/-- The `NaverPayment` request payload (header fields + ordered items). -/
structure NaverPayment extends NaverPaymentFields where
  items : List NaverItemFields
  deriving DecidableEq

/-- Row of `tbl_naver_payment`; `id` is the AUTOINCREMENT surrogate key,
`(user_id, pay_id)` is UNIQUE. -/
structure NaverHeaderRow where
  id : Nat
  userId : String
  fields : NaverPaymentFields
  deriving DecidableEq

/-- Row of `tbl_naver_payment_item`; `(payment_id, line_no)` is UNIQUE. -/
structure NaverItemRow where
  paymentId : Nat
  item : NaverItemFields
  deriving DecidableEq

/-- Payload columns of `tbl_coupang_payment`. -/
structure CoupangPaymentFields where
  orderId : String
  externalId : Option String
  statusCode : Option String
  statusText : Option String
  statusColor : Option String
  orderedAt : String
  paidAt : Option String
  merchantName : String
  merchantTel : Option String
  merchantUrl : Option String
  merchantImageUrl : Option String
  productName : Option String
  productCount : Option Int
  productDetailUrl : Option String
  orderDetailUrl : Option String
  totalAmount : Int
  totalOrderAmount : Option Int
  totalCancelAmount : Option Int
  discountAmount : Option Int
  restAmount : Option Int
  mainPayType : Option String
  payRocketBalanceAmount : Option Int
  payCardAmount : Option Int
  payCouponAmount : Option Int
  payCoupangCashAmount : Option Int
  payRocketBankAmount : Option Int
  wowInstantDiscount : Option Int
  rewardCashAmount : Option Int
  deriving DecidableEq

/-- Fields of one Coupang line item as supplied in the payload. -/
structure CoupangItemFields where
  lineNo : Int
  productId : Option String
  vendorItemId : Option String
  productName : String
  imageUrl : Option String
  infoUrl : Option String
  brandName : Option String
  quantity : Int
  unitPrice : Option Int
  discountedUnitPrice : Option Int
  combinedUnitPrice : Option Int
  lineAmount : Option Int
  restAmount : Option Int
  memo : Option String
  deriving DecidableEq

/-- The `CoupangPayment` request payload. -/
structure CoupangPayment extends CoupangPaymentFields where
  items : List CoupangItemFields
  deriving DecidableEq

/-- Row of `tbl_coupang_payment`; `(user_id, order_id)` is UNIQUE. -/
structure CoupangHeaderRow where
  id : Nat
  userId : String
  fields : CoupangPaymentFields
  deriving DecidableEq

/-- Row of `tbl_coupang_payment_item`; `(payment_id, line_no)` is UNIQUE. -/
structure CoupangItemRow where
  paymentId : Nat
  item : CoupangItemFields
  deriving DecidableEq

/-- Row of `tbl_ledger_account`. -/
structure LedgerAccountRow where
  id : String
  nickname : String
  passwordHash : Option String
  passwordExpiresAt : Option String
  deriving DecidableEq

/-- Row of `tbl_ledger_entry` (the SQL column `type` is rendered
`entryType`). -/
structure LedgerEntryRow where
  id : String
  accountId : String
  entryType : String
  amount : Int
  date : String
  title : String
  category : String
  platform : Option String
  url : Option String
  merchant : Option String
  paymentMethod : Option String
  memo : Option String
  color : Option String
  deriving DecidableEq

/-- The `LedgerEntryInput` request payload. -/
structure LedgerEntryInput where
  accountId : String
  entryType : String
  amount : Int
  date : String
  title : String
  category : String
  platform : Option String
  url : Option String
  merchant : Option String
  paymentMethod : Option String
  memo : Option String
  color : Option String
  tags : List String
  deriving DecidableEq

/-- Row of `tbl_ledger_tag`; `(entry_id, tag)` is UNIQUE. -/
structure LedgerTagRow where
  entryId : String
  tag : String
  deriving DecidableEq

/-- An after-snapshot as serialized by `serde_json::to_string(&LedgerEntry)`:
the entry's business columns plus its tag list. -/
structure FullSnapshot where
  entry : LedgerEntryRow
  tags : List String
  deriving DecidableEq

/-- Row of `tbl_ledger_history`.  `snapshotBefore` is produced by the SQL
`json_object(...)` over the entry columns (no tags); `snapshotAfter` by
serde over the full entry including tags — the two serialization shapes in
the source. -/
structure LedgerHistoryRow where
  entryId : String
  action : String
  snapshotBefore : Option LedgerEntryRow
  snapshotAfter : Option FullSnapshot
  deriving DecidableEq

/-- The whole SQLite database (claim-relevant tables). -/
structure DB where
  users : List UserRow
  credentials : List CredRow
  naverPayments : List NaverHeaderRow
  naverItems : List NaverItemRow
  coupangPayments : List CoupangHeaderRow
  coupangItems : List CoupangItemRow
  ledgerAccounts : List LedgerAccountRow
  ledgerEntries : List LedgerEntryRow
  ledgerTags : List LedgerTagRow
  ledgerHistory : List LedgerHistoryRow
  nextNaverId : Nat
  nextCoupangId : Nat
  deriving DecidableEq

/-- The empty database produced by `run_migrations` on a fresh file. -/
def emptyDB : DB := ⟨[], [], [], [], [], [], [], [], [], [], 0, 0⟩

/-- FOREIGN KEY existence check against `tbl_user`. -/
def userExists (id : String) (db : DB) : Bool := db.users.any (fun u => u.id == id)

/-- SQL `INSERT ... ON CONFLICT DO UPDATE` against a row list: if some row
matches the conflict target `hit`, the conflicting row is updated with
`upd`; otherwise the fresh row `ins` is appended. -/
def upsertRow (hit : ρ → Bool) (upd : ρ → ρ) (ins : ρ) (tbl : List ρ) : List ρ :=
  if tbl.any hit then tbl.map (fun r => if hit r then upd r else r) else tbl ++ [ins]

/-! ### migrate_coupang_tables (lib.rs lines 438-482) -/

/-- Columns added to `tbl_coupang_payment` after the initial schema. -/
def payment_columns : List (String × String) :=
  [("paid_at", "TEXT"),
   ("total_order_amount", "INTEGER"),
   ("total_cancel_amount", "INTEGER DEFAULT 0"),
   ("main_pay_type", "TEXT"),
   ("pay_rocket_balance_amount", "INTEGER DEFAULT 0"),
   ("pay_card_amount", "INTEGER DEFAULT 0"),
   ("pay_coupon_amount", "INTEGER DEFAULT 0"),
   ("pay_coupang_cash_amount", "INTEGER DEFAULT 0"),
   ("pay_rocket_bank_amount", "INTEGER DEFAULT 0"),
   ("wow_instant_discount", "INTEGER DEFAULT 0"),
   ("reward_cash_amount", "INTEGER DEFAULT 0")]

/-- Columns added to `tbl_coupang_payment_item` after the initial schema. -/
def item_columns : List (String × String) :=
  [("product_id", "TEXT"),
   ("vendor_item_id", "TEXT"),
   ("brand_name", "TEXT"),
   ("discounted_unit_price", "INTEGER"),
   ("combined_unit_price", "INTEGER")]

/-- The `format!("ALTER TABLE {} ADD COLUMN {} {}", ...)` statement text. -/
def alterSql (table col ty : String) : String :=
  "ALTER TABLE " ++ table ++ " ADD COLUMN " ++ col ++ " " ++ ty

/-- SQLite's error message class for re-adding an existing column. -/
def isDuplicateColumnError (msg : String) : Bool := likeContains "duplicate column name" msg

/-- Additive migration step.  `exec` is the abstract
`conn.execute(sql, [])`: it either applies the statement to the connection
state `σ` or fails with a message (a failed ALTER leaves the state
unchanged).  The source runs each ALTER as `let _ = conn.execute(&sql, []);`
— the `Result` is discarded, so every failure (of any kind) is swallowed
and the function returns `Ok(())` unconditionally. -/
def migrate_coupang_tables (exec : σ → String → Except String σ) (s : σ) : Except String σ :=
  let s1 := payment_columns.foldl
    (fun acc c =>
      match exec acc (alterSql "tbl_coupang_payment" c.1 c.2) with
      | Except.ok s2 => s2
      | Except.error _ => acc) s
  let s2 := item_columns.foldl
    (fun acc c =>
      match exec acc (alterSql "tbl_coupang_payment_item" c.1 c.2) with
      | Except.ok s2 => s2
      | Except.error _ => acc) s1
  Except.ok s2

/-! ### delete_user (lib.rs lines 1000-1018)

`DELETE FROM tbl_user WHERE id = ?1`.  The declared cascades remove the
owner's credentials, both kinds of payment headers, and — transitively via
the item tables' `payment_id` foreign keys — those headers' line items. -/

/-- Owner deletion with the schema's declared cascades. -/
def delete_user (id : String) (db : DB) : DB :=
  { db with
    users := db.users.filter (fun u => !(u.id == id)),
    credentials := db.credentials.filter (fun c => !(c.userId == id)),
    naverPayments := db.naverPayments.filter (fun p => !(p.userId == id)),
    naverItems := db.naverItems.filter
      (fun it => !(db.naverPayments.any (fun p => p.userId == id && p.id == it.paymentId))),
    coupangPayments := db.coupangPayments.filter (fun p => !(p.userId == id)),
    coupangItems := db.coupangItems.filter
      (fun it => !(db.coupangPayments.any (fun p => p.userId == id && p.id == it.paymentId))) }

/-! ### save_account (lib.rs lines 963-998) and
update_account_credentials (lib.rs lines 1088-1129)

Neither function opens a transaction: each statement autocommits, so a
mid-operation failure leaves the earlier statements' effects in place.
Statement numbering for the failure oracle follows source order. -/

/-- The credential loop of `save_account`:
`INSERT OR REPLACE INTO tbl_credential ...` per header, statements
`idx, idx+1, ...`.  OR REPLACE deletes a `(user_id, key)` conflict victim
and inserts; the FOREIGN KEY to `tbl_user` still applies. -/
def insertCredsOrReplace (fail : Nat → Bool) (idx : Nat) (userId : String) :
    List (String × String) → DB → DB × Bool
  | [], db => (db, true)
  | (k, v) :: rest, db =>
    if fail idx || !(userExists userId db) then (db, false)
    else insertCredsOrReplace fail (idx + 1) userId rest
      { db with credentials :=
          db.credentials.filter (fun c => !(c.userId == userId && c.key == k)) ++ [⟨userId, k, v⟩] }

/-- The credential loop of `update_account_credentials`: plain
`INSERT INTO tbl_credential ...` per header (fails on a
`(user_id, key)` conflict or a missing user). -/
def insertCreds (fail : Nat → Bool) (idx : Nat) (userId : String) :
    List (String × String) → DB → DB × Bool
  | [], db => (db, true)
  | (k, v) :: rest, db =>
    if fail idx || !(userExists userId db)
        || db.credentials.any (fun c => c.userId == userId && c.key == k) then (db, false)
    else insertCreds fail (idx + 1) userId rest
      { db with credentials := db.credentials ++ [⟨userId, k, v⟩] }

/-- `save_account`: statement 0 inserts the user row, statements 1..n the
credentials.  No transaction. -/
def save_account (fail : Nat → Bool) (userId provider aliasName curl : String)
    (headers : List (String × String)) (db : DB) : DB × Bool :=
  if fail 0 || db.users.any (fun u => u.id == userId) then (db, false)
  else insertCredsOrReplace fail 1 userId headers
    { db with users := db.users ++ [⟨userId, provider, aliasName, curl⟩] }

/-- `update_account_credentials`: statement 0 updates the user's `curl`,
statement 1 deletes the user's credentials, statements 2..n insert the new
ones.  No transaction: the partial state persists on failure. -/
def update_account_credentials (fail : Nat → Bool) (userId curl : String)
    (headers : List (String × String)) (db : DB) : DB × Bool :=
  if fail 0 then (db, false)
  else
    let users1 := db.users.map (fun u => if u.id == userId then { u with curl := curl } else u)
    let db1 := { db with users := users1 }
    if fail 1 then (db1, false)
    else
      let db2 := { db1 with credentials := db1.credentials.filter (fun c => !(c.userId == userId)) }
      insertCreds fail 2 userId headers db2

/-! ### save_naver_payment (lib.rs lines 1131-1232) -/

/-- Conflict target of the header upsert: the UNIQUE index
`(user_id, pay_id)`. -/
def naverHit (userId payId : String) (r : NaverHeaderRow) : Bool :=
  r.userId == userId && r.fields.payId == payId

/-- The `ON CONFLICT(user_id, pay_id) DO UPDATE SET` clause: exactly
`external_id, service_type, status_code, status_text, status_color,
merchant_name, total_amount` (plus the omitted `updated_at`) are
overwritten; every other column keeps its stored value. -/
def naverHeaderUpdate (p : NaverPayment) (r : NaverHeaderRow) : NaverHeaderRow :=
  { r with fields := { r.fields with
      externalId := p.externalId,
      serviceType := p.serviceType,
      statusCode := p.statusCode,
      statusText := p.statusText,
      statusColor := p.statusColor,
      merchantName := p.merchantName,
      totalAmount := p.totalAmount } }

/-- The insert arm of the header upsert: all columns from the payload. -/
def naverHeaderInsert (id : Nat) (userId : String) (p : NaverPayment) : NaverHeaderRow :=
  ⟨id, userId, p.toNaverPaymentFields⟩

/-- Conflict target of the item upsert: the UNIQUE index
`(payment_id, line_no)`. -/
def naverItemHit (pk : Nat) (lineNo : Int) (r : NaverItemRow) : Bool :=
  r.paymentId == pk && r.item.lineNo == lineNo

/-- The item `ON CONFLICT(payment_id, line_no) DO UPDATE SET` clause:
`product_name, image_url, info_url, quantity, unit_price, line_amount`
(plus `updated_at`) — `rest_amount` and `memo` are NOT updated. -/
def naverItemUpdate (it : NaverItemFields) (r : NaverItemRow) : NaverItemRow :=
  { r with item := { r.item with
      productName := it.productName,
      imageUrl := it.imageUrl,
      infoUrl := it.infoUrl,
      quantity := it.quantity,
      unitPrice := it.unitPrice,
      lineAmount := it.lineAmount } }

/-- The item insert arm: all columns from the payload. -/
def naverItemInsert (pk : Nat) (it : NaverItemFields) : NaverItemRow := ⟨pk, it⟩

/-- The item loop of `save_naver_payment`, statements `idx, idx+1, ...`
inside the transaction; `none` = some statement failed. -/
def naverItemsTx (fail : Nat → Bool) (pk : Nat) :
    Nat → List NaverItemFields → List NaverItemRow → Option (List NaverItemRow)
  | _, [], tbl => some tbl
  | idx, it :: rest, tbl =>
    if fail idx then none
    else naverItemsTx fail pk (idx + 1) rest
      (upsertRow (naverItemHit pk it.lineNo) (naverItemUpdate it) (naverItemInsert pk it) tbl)

/-- `save_naver_payment` with its transaction: statement 0 is the header
upsert (its insert arm checks the `user_id` foreign key; the AUTOINCREMENT
counter advances only when a row is actually inserted), statement 1 the
surrogate-id lookup, statements 2..n the item upserts.  Any failure drops
the transaction: the original state is returned. -/
def save_naver_payment_tx (fail : Nat → Bool) (userId : String) (p : NaverPayment)
    (db : DB) : DB × Bool :=
  let hdrExists := db.naverPayments.any (naverHit userId p.payId)
  if fail 0 || (!hdrExists && !(userExists userId db)) then (db, false)
  else
    let db1 := { db with
      naverPayments := upsertRow (naverHit userId p.payId) (naverHeaderUpdate p)
        (naverHeaderInsert db.nextNaverId userId p) db.naverPayments,
      nextNaverId := if hdrExists then db.nextNaverId else db.nextNaverId + 1 }
    if fail 1 then (db, false)
    else
      match db1.naverPayments.find? (naverHit userId p.payId) with
      | none => (db, false)
      | some r =>
        match naverItemsTx fail r.id 2 p.items db1.naverItems with
        | none => (db, false)
        | some items => ({ db1 with naverItems := items }, true)

/-- `save_naver_payment` on the failure-free path. -/
def save_naver_payment (userId : String) (p : NaverPayment) (db : DB) : DB :=
  (save_naver_payment_tx (fun _ => false) userId p db).1

/-! ### save_coupang_payment (lib.rs lines 1528-1646) -/

/-- Conflict target of the Coupang header upsert: `(user_id, order_id)`. -/
def coupangHit (userId orderId : String) (r : CoupangHeaderRow) : Bool :=
  r.userId == userId && r.fields.orderId == orderId

/-- The Coupang header `DO UPDATE SET` clause overwrites every payload
column except the conflict key `order_id` (and `created_at`):
`external_id, status_code, status_text, status_color, ordered_at, paid_at,
merchant_name, merchant_tel, merchant_url, merchant_image_url,
product_name, product_count, product_detail_url, order_detail_url,
total_amount, total_order_amount, total_cancel_amount, discount_amount,
rest_amount, main_pay_type, pay_rocket_balance_amount, pay_card_amount,
pay_coupon_amount, pay_coupang_cash_amount, pay_rocket_bank_amount,
wow_instant_discount, reward_cash_amount` (plus `updated_at`). -/
def coupangHeaderUpdate (p : CoupangPayment) (r : CoupangHeaderRow) : CoupangHeaderRow :=
  { r with fields := { r.fields with
      externalId := p.externalId,
      statusCode := p.statusCode,
      statusText := p.statusText,
      statusColor := p.statusColor,
      orderedAt := p.orderedAt,
      paidAt := p.paidAt,
      merchantName := p.merchantName,
      merchantTel := p.merchantTel,
      merchantUrl := p.merchantUrl,
      merchantImageUrl := p.merchantImageUrl,
      productName := p.productName,
      productCount := p.productCount,
      productDetailUrl := p.productDetailUrl,
      orderDetailUrl := p.orderDetailUrl,
      totalAmount := p.totalAmount,
      totalOrderAmount := p.totalOrderAmount,
      totalCancelAmount := p.totalCancelAmount,
      discountAmount := p.discountAmount,
      restAmount := p.restAmount,
      mainPayType := p.mainPayType,
      payRocketBalanceAmount := p.payRocketBalanceAmount,
      payCardAmount := p.payCardAmount,
      payCouponAmount := p.payCouponAmount,
      payCoupangCashAmount := p.payCoupangCashAmount,
      payRocketBankAmount := p.payRocketBankAmount,
      wowInstantDiscount := p.wowInstantDiscount,
      rewardCashAmount := p.rewardCashAmount } }

/-- The Coupang header insert arm. -/
def coupangHeaderInsert (id : Nat) (userId : String) (p : CoupangPayment) : CoupangHeaderRow :=
  ⟨id, userId, p.toCoupangPaymentFields⟩

/-- Conflict target of the Coupang item upsert. -/
def coupangItemHit (pk : Nat) (lineNo : Int) (r : CoupangItemRow) : Bool :=
  r.paymentId == pk && r.item.lineNo == lineNo

/-- The Coupang item `DO UPDATE SET` clause overwrites every payload
column: `product_id, vendor_item_id, product_name, image_url, info_url,
brand_name, quantity, unit_price, discounted_unit_price,
combined_unit_price, line_amount, rest_amount, memo` (plus
`updated_at`). -/
def coupangItemUpdate (it : CoupangItemFields) (r : CoupangItemRow) : CoupangItemRow :=
  { r with item := { r.item with
      productId := it.productId,
      vendorItemId := it.vendorItemId,
      productName := it.productName,
      imageUrl := it.imageUrl,
      infoUrl := it.infoUrl,
      brandName := it.brandName,
      quantity := it.quantity,
      unitPrice := it.unitPrice,
      discountedUnitPrice := it.discountedUnitPrice,
      combinedUnitPrice := it.combinedUnitPrice,
      lineAmount := it.lineAmount,
      restAmount := it.restAmount,
      memo := it.memo } }

/-- The Coupang item insert arm. -/
def coupangItemInsert (pk : Nat) (it : CoupangItemFields) : CoupangItemRow := ⟨pk, it⟩

/-- The item loop of `save_coupang_payment`. -/
def coupangItemsTx (fail : Nat → Bool) (pk : Nat) :
    Nat → List CoupangItemFields → List CoupangItemRow → Option (List CoupangItemRow)
  | _, [], tbl => some tbl
  | idx, it :: rest, tbl =>
    if fail idx then none
    else coupangItemsTx fail pk (idx + 1) rest
      (upsertRow (coupangItemHit pk it.lineNo) (coupangItemUpdate it) (coupangItemInsert pk it) tbl)

/-- `save_coupang_payment` with its transaction (same statement layout as
the Naver variant). -/
def save_coupang_payment_tx (fail : Nat → Bool) (userId : String) (p : CoupangPayment)
    (db : DB) : DB × Bool :=
  let hdrExists := db.coupangPayments.any (coupangHit userId p.orderId)
  if fail 0 || (!hdrExists && !(userExists userId db)) then (db, false)
  else
    let db1 := { db with
      coupangPayments := upsertRow (coupangHit userId p.orderId) (coupangHeaderUpdate p)
        (coupangHeaderInsert db.nextCoupangId userId p) db.coupangPayments,
      nextCoupangId := if hdrExists then db.nextCoupangId else db.nextCoupangId + 1 }
    if fail 1 then (db, false)
    else
      match db1.coupangPayments.find? (coupangHit userId p.orderId) with
      | none => (db, false)
      | some r =>
        match coupangItemsTx fail r.id 2 p.items db1.coupangItems with
        | none => (db, false)
        | some items => ({ db1 with coupangItems := items }, true)

/-- `save_coupang_payment` on the failure-free path. -/
def save_coupang_payment (userId : String) (p : CoupangPayment) (db : DB) : DB :=
  (save_coupang_payment_tx (fun _ => false) userId p db).1

/-! ### Ledger password expiry (lib.rs lines 1996-2182) -/

/-- Predicate of the purge UPDATE's WHERE clause:
`password_expires_at IS NOT NULL AND password_expires_at < now`. -/
def expiredAt (now : String) (a : LedgerAccountRow) : Bool :=
  match a.passwordExpiresAt with
  | some e => strLt e now
  | none => false

/-- `check_and_reset_expired_passwords`: clears `password_hash` and
`password_expires_at` on every account whose expiry lies strictly before
`now`. -/
def check_and_reset_expired_passwords (now : String) (db : DB) : DB :=
  let accounts1 := db.ledgerAccounts.map
    (fun a => if expiredAt now a then { a with passwordHash := none, passwordExpiresAt := none } else a)
  { db with ledgerAccounts := accounts1 }

/-- `create_ledger_account`: purge, then insert the new account.  The md5
digest and the +30-day expiry are wall-clock/hash computations passed in as
`passwordHash` and `expiresAt` (the source always picks
`expiresAt = now + 30 days`). -/
def create_ledger_account (now expiresAt accountId nickname : String)
    (passwordHash : Option String) (db : DB) : DB :=
  let db1 := check_and_reset_expired_passwords now db
  let row : LedgerAccountRow := ⟨accountId, nickname, passwordHash, passwordHash.map (fun _ => expiresAt)⟩
  { db1 with ledgerAccounts := db1.ledgerAccounts ++ [row] }

/-- `list_ledger_accounts`: purge, then read (the `ORDER BY created_at`
presentation order is not modelled). -/
def list_ledger_accounts (now : String) (db : DB) : List LedgerAccountRow × DB :=
  let db1 := check_and_reset_expired_passwords now db
  (db1.ledgerAccounts, db1)

/-- `verify_ledger_password`: purge, then compare the stored hash; `none`
renders the NotFound error of the `query_row` on a missing account. -/
def verify_ledger_password (now accountId passwordHash : String) (db : DB) : Option Bool × DB :=
  let db1 := check_and_reset_expired_passwords now db
  match db1.ledgerAccounts.find? (fun a => a.id == accountId) with
  | none => (none, db1)
  | some a => (some (a.passwordHash == some passwordHash), db1)

/-- `update_ledger_password`: purge, then set the new hash and expiry. -/
def update_ledger_password (now expiresAt accountId passwordHash : String) (db : DB) : DB :=
  let db1 := check_and_reset_expired_passwords now db
  let accounts1 := db1.ledgerAccounts.map
    (fun a => if a.id == accountId
      then { a with passwordHash := some passwordHash, passwordExpiresAt := some expiresAt }
      else a)
  { db1 with ledgerAccounts := accounts1 }

/-- `check_password_expiry`: just the purge. -/
def check_password_expiry (now : String) (db : DB) : DB :=
  check_and_reset_expired_passwords now db

/-- `delete_ledger_account` (lib.rs lines 2165-2182): deletes the account —
with the declared cascades taking its entries, their tags and their history
rows — and, unlike every other ledger operation, performs NO expiry
purge. -/
def delete_ledger_account (accountId : String) (db : DB) : DB :=
  { db with
    ledgerAccounts := db.ledgerAccounts.filter (fun a => !(a.id == accountId)),
    ledgerEntries := db.ledgerEntries.filter (fun e => !(e.accountId == accountId)),
    ledgerTags := db.ledgerTags.filter
      (fun t => !(db.ledgerEntries.any (fun e => e.accountId == accountId && e.id == t.entryId))),
    ledgerHistory := db.ledgerHistory.filter
      (fun h => !(db.ledgerEntries.any (fun e => e.accountId == accountId && e.id == h.entryId))) }

/-! ### Ledger entries (lib.rs lines 2184-2406) -/

/-- The entry row built by `create_ledger_entry` from its input. -/
def entryRowOfInput (entryId accountId : String) (entry : LedgerEntryInput) : LedgerEntryRow :=
  ⟨entryId, accountId, entry.entryType, entry.amount, entry.date, entry.title, entry.category,
   entry.platform, entry.url, entry.merchant, entry.paymentMethod, entry.memo, entry.color⟩

/-- `create_ledger_entry`: one transaction holding the purge, the entry
INSERT, the tag INSERTs and one `action='create'` history append whose
after-snapshot is the full new entry (with tags).  A constraint failure —
missing account (FOREIGN KEY), an `id` collision, a duplicated tag
(UNIQUE) — aborts the transaction, returning the original state. -/
def create_ledger_entry (now entryId accountId : String) (entry : LedgerEntryInput)
    (db : DB) : DB :=
  let db1 := check_and_reset_expired_passwords now db
  if !(db1.ledgerAccounts.any (fun a => a.id == accountId)) then db
  else if db1.ledgerEntries.any (fun e => e.id == entryId) then db
  else if hasDup entry.tags then db
  else
    let row := entryRowOfInput entryId accountId entry
    { db1 with
      ledgerEntries := db1.ledgerEntries ++ [row],
      ledgerTags := db1.ledgerTags ++ entry.tags.map (fun t => ⟨entryId, t⟩),
      ledgerHistory := db1.ledgerHistory ++ [⟨entryId, "create", none, some ⟨row, entry.tags⟩⟩] }

/-- `update_ledger_entry`: one transaction holding the purge, the
before-snapshot read (`json_object` over the columns — no tags), the entry
UPDATE (which keeps `account_id` and `created_at`), the tag
delete-all-then-insert, and one `action='update'` history append carrying
the before-snapshot and a full after-snapshot.  A missing entry or a
duplicated tag aborts the transaction. -/
def update_ledger_entry (now entryId : String) (entry : LedgerEntryInput) (db : DB) : DB :=
  let db1 := check_and_reset_expired_passwords now db
  match db1.ledgerEntries.find? (fun e => e.id == entryId) with
  | none => db
  | some old =>
    if hasDup entry.tags then db
    else
      let newRow := { old with
        entryType := entry.entryType, amount := entry.amount, date := entry.date,
        title := entry.title, category := entry.category, platform := entry.platform,
        url := entry.url, merchant := entry.merchant, paymentMethod := entry.paymentMethod,
        memo := entry.memo, color := entry.color }
      { db1 with
        ledgerEntries := db1.ledgerEntries.map (fun e => if e.id == entryId then newRow else e),
        ledgerTags := db1.ledgerTags.filter (fun t => !(t.entryId == entryId))
          ++ entry.tags.map (fun t => ⟨entryId, t⟩),
        ledgerHistory := db1.ledgerHistory
          ++ [⟨entryId, "update", some old, some ⟨newRow, entry.tags⟩⟩] }

/-- `delete_ledger_entry`: one transaction holding the purge, the
before-snapshot read, one `action='delete'` history append (before-only),
then `DELETE FROM tbl_ledger_entry` — whose declared cascades remove the
entry's tags AND, via `tbl_ledger_history.entry_id ON DELETE CASCADE`
(schema line 370), every history row of the entry including the row just
appended.  A missing entry fails the history INSERT's foreign key and
aborts the transaction. -/
def delete_ledger_entry (now entryId : String) (db : DB) : DB :=
  let db1 := check_and_reset_expired_passwords now db
  if !(db1.ledgerEntries.any (fun e => e.id == entryId)) then db
  else
    let snapshotBefore := db1.ledgerEntries.find? (fun e => e.id == entryId)
    let deleteRow : LedgerHistoryRow := ⟨entryId, "delete", snapshotBefore, none⟩
    let db2 := { db1 with ledgerHistory := db1.ledgerHistory ++ [deleteRow] }
    { db2 with
      ledgerEntries := db2.ledgerEntries.filter (fun e => !(e.id == entryId)),
      ledgerTags := db2.ledgerTags.filter (fun t => !(t.entryId == entryId)),
      ledgerHistory := db2.ledgerHistory.filter (fun h => !(h.entryId == entryId)) }

/-- `list_ledger_entries`: purge, then the month-filtered read
(`date LIKE 'yearMonth%'`), sorted by date descending (the `created_at`
tiebreak is not modelled). -/
def list_ledger_entries (now accountId yearMonth : String) (db : DB) :
    List LedgerEntryRow × DB :=
  let db1 := check_and_reset_expired_passwords now db
  let rows := db1.ledgerEntries.filter
    (fun e => e.accountId == accountId && likePrefix yearMonth e.date)
  (sortBy (fun a b => !(strLt a.date b.date)) rows, db1)

/-- `get_ledger_entry`: purge, then the single-row read with its tag list
(`ORDER BY tag`). -/
def get_ledger_entry (now entryId : String) (db : DB) :
    Option (LedgerEntryRow × List String) × DB :=
  let db1 := check_and_reset_expired_passwords now db
  match db1.ledgerEntries.find? (fun e => e.id == entryId) with
  | none => (none, db1)
  | some e =>
    let tags := sortBy (fun a b => !(strLt b a)) ((db1.ledgerTags.filter
      (fun t => t.entryId == entryId)).map (fun t => t.tag))
    (some (e, tags), db1)

/-- `list_ledger_history`: purge, then every history row of the entry
(`ORDER BY created_at DESC` = reverse append order). -/
def list_ledger_history (now entryId : String) (db : DB) : List LedgerHistoryRow × DB :=
  let db1 := check_and_reset_expired_passwords now db
  ((db1.ledgerHistory.filter (fun h => h.entryId == entryId)).reverse, db1)

/-! ### search_products (lib.rs lines 1669-1759) -/

/-- One row of the cross-provider search result (the item-table
AUTOINCREMENT `id` column is not modelled). -/
structure SearchResultItem where
  provider : String
  productName : String
  imageUrl : Option String
  merchantName : String
  paidAt : String
  quantity : Int
  unitPrice : Option Int
  lineAmount : Option Int
  deriving DecidableEq

/-- The `SearchResponse` payload: truncated items plus the pre-truncation
total. -/
structure SearchResponse where
  items : List SearchResultItem
  total : Nat
  deriving DecidableEq

/-- The Naver status filter of the search query. -/
def naverStatusOk (sc : Option String) : Bool :=
  sc == some "PURCHASE_CONFIRMED" || sc == some "PAYMENT_COMPLETED"
    || sc == some "DELIVERED" || sc == some "PURCHASE_CONFIRM_EXTENDED"

/-- The Coupang status filter of the search query
(`status_code IS NULL OR status_code != 'CANCELED'`). -/
def coupangStatusOk (sc : Option String) : Bool :=
  sc == none || !(sc == some "CANCELED")

/-- The Naver arm of the search: item-header join, name containment and
status filters, `ORDER BY p.paid_at DESC`, `LIMIT lim`. -/
def naver_search_rows (query : String) (lim : Int) (db : DB) : List SearchResultItem :=
  let rows := db.naverItems.flatMap (fun it =>
    ((db.naverPayments.filter (fun p => p.id == it.paymentId
        && naverStatusOk p.fields.statusCode)).map (fun p =>
      (⟨"naver", it.item.productName, it.item.imageUrl, p.fields.merchantName,
        p.fields.paidAt, it.item.quantity, it.item.unitPrice, it.item.lineAmount⟩ :
        SearchResultItem))))
  let rows := rows.filter (fun r => likeContains query r.productName)
  sqlLimit lim (sortBy (fun a b => !(strLt a.paidAt b.paidAt)) rows)

/-- The Coupang arm of the search (`ordered_at` plays the date role). -/
def coupang_search_rows (query : String) (lim : Int) (db : DB) : List SearchResultItem :=
  let rows := db.coupangItems.flatMap (fun it =>
    ((db.coupangPayments.filter (fun p => p.id == it.paymentId
        && coupangStatusOk p.fields.statusCode)).map (fun p =>
      (⟨"coupang", it.item.productName, it.item.imageUrl, p.fields.merchantName,
        p.fields.orderedAt, it.item.quantity, it.item.unitPrice, it.item.lineAmount⟩ :
        SearchResultItem))))
  let rows := rows.filter (fun r => likeContains query r.productName)
  sqlLimit lim (sortBy (fun a b => !(strLt a.paidAt b.paidAt)) rows)

/-- `search_products`: gather both per-provider candidate lists (each
`LIMIT result_limit`), merge, stable-sort by date descending, report
`total` = candidate count, then truncate to `result_limit` (via Rust's
`as usize` cast). -/
def search_products (query : String) (limit : Option Int) (db : DB) : SearchResponse :=
  let resultLimit := limit.getD 50
  let nrows := naver_search_rows query resultLimit db
  let crows := coupang_search_rows query resultLimit db
  let items := sortBy (fun a b => !(strLt a.paidAt b.paidAt)) (nrows ++ crows)
  let total := items.length
  let items2 := if items.length > usizeOfInt resultLimit
    then items.take (usizeOfInt resultLimit) else items
  ⟨items2, total⟩

/-- Invariant of claim C8: no ledger account whose password expiry lies in
the past still carries a password hash or expiry. -/
def noExpiredPasswords (now : String) (db : DB) : Prop :=
  ∀ a ∈ db.ledgerAccounts, expiredAt now a = false

/-! ### Concrete sample data (used by witnesses and counterexamples) -/

/-- Sample Naver line item, line 1. -/
def sampleNaverItem1 : NaverItemFields :=
  { lineNo := 1, productName := "Apple Juice", imageUrl := some "http://img/1",
    infoUrl := none, quantity := 2, unitPrice := some 1500, lineAmount := some 3000,
    restAmount := some 0, memo := none }

/-- Sample Naver line item, line 2. -/
def sampleNaverItem2 : NaverItemFields :=
  { lineNo := 2, productName := "Banana Chips", imageUrl := none,
    infoUrl := some "http://info/2", quantity := 1, unitPrice := some 900,
    lineAmount := some 900, restAmount := none, memo := some "gift" }

/-- Sample Naver payment payload with two line items. -/
def sampleNaverPayment : NaverPayment :=
  { payId := "NP-1", externalId := some "EXT-1", serviceType := none,
    statusCode := some "PAYMENT_COMPLETED", statusText := some "done",
    statusColor := none, paidAt := "2024-05-02T10:00:00", purchaserName := some "Kim",
    merchantNo := none, merchantName := "Happy Mart", merchantTel := some "02-111-2222",
    merchantUrl := none, merchantImageUrl := none, merchantPaymentId := none,
    subMerchantName := none, subMerchantUrl := none, subMerchantPaymentId := none,
    isTaxType := some false, isOverseaTransfer := none, productName := some "Apple Juice",
    productCount := some 2, productDetailUrl := none, orderDetailUrl := none,
    totalAmount := 3900, discountAmount := some 0, cupDepositAmount := none,
    restAmount := some 0, payEasycardAmount := none, payEasybankAmount := none,
    payRewardPointAmount := some 0, payChargePointAmount := none,
    payGiftcardAmount := none, benefitType := none, hasPlusMembership := some true,
    benefitWaitingPeriod := none, benefitExpectedAmount := none, benefitAmount := some 39,
    isMembership := none, isBranch := none, isLastSubscriptionRound := none,
    isCafeSafePayment := none, merchantCountryCode := some "KR",
    merchantCountryName := none, applicationCompleted := none,
    items := [sampleNaverItem1, sampleNaverItem2] }

/-- Naver resync payload: same key, but line 1 changes `rest_amount` and
`memo` (the two columns the item upsert does not overwrite). -/
def sampleNaverPayment2 : NaverPayment :=
  { sampleNaverPayment with
    statusCode := some "PURCHASE_CONFIRMED",
    items := [{ sampleNaverItem1 with restAmount := some 999, memo := some "changed" },
              sampleNaverItem2] }

/-- Sample Coupang line item, line 1. -/
def sampleCoupangItem1 : CoupangItemFields :=
  { lineNo := 1, productId := some "p100", vendorItemId := some "v100",
    productName := "Sparkling Water", imageUrl := none, infoUrl := none,
    brandName := some "Acme", quantity := 6, unitPrice := some 700,
    discountedUnitPrice := some 650, combinedUnitPrice := some 650,
    lineAmount := some 3900, restAmount := none, memo := none }

/-- Sample Coupang payment payload with one line item. -/
def sampleCoupangPayment : CoupangPayment :=
  { orderId := "CO-1", externalId := some "CO-1", statusCode := some "ORDERED",
    statusText := some "주문완료", statusColor := none,
    orderedAt := "2024-05-03T09:30:00", paidAt := some "2024-05-03T09:31:00",
    merchantName := "Coupang Seller", merchantTel := some "070-1111",
    merchantUrl := none, merchantImageUrl := none, productName := some "Sparkling Water",
    productCount := some 6, productDetailUrl := none, orderDetailUrl := none,
    totalAmount := 3900, totalOrderAmount := some 4200, totalCancelAmount := some 0,
    discountAmount := some 300, restAmount := none, mainPayType := some "CARD",
    payRocketBalanceAmount := some 0, payCardAmount := some 3900,
    payCouponAmount := some 0, payCoupangCashAmount := some 0,
    payRocketBankAmount := some 0, wowInstantDiscount := some 0,
    rewardCashAmount := some 39, items := [sampleCoupangItem1] }

/-- Coupang resync payload: same key, but `merchant_tel` — a column outside
the spec's mutable subset (status, amounts, merchant name) — differs. -/
def sampleCoupangPayment2 : CoupangPayment :=
  { sampleCoupangPayment with merchantTel := some "070-2222" }

/-- A database holding one owner `u1`. -/
def dbU : DB := { emptyDB with users := [⟨"u1", "naver", "me", "curl -X GET"⟩] }

/-- A database holding owner `u1` with one stored credential. -/
def dbC : DB :=
  { emptyDB with
    users := [⟨"u1", "naver", "me", "c0"⟩],
    credentials := [⟨"u1", "k1", "v1"⟩] }

/-- Two owners with credentials, payments and line items each (exercises the
owner-delete cascade). -/
def dbTwoOwners : DB :=
  { emptyDB with
    users := [⟨"u1", "naver", "me", "c1"⟩, ⟨"u2", "coupang", "you", "c2"⟩],
    credentials := [⟨"u1", "k1", "v1"⟩, ⟨"u2", "k2", "v2"⟩],
    naverPayments := [⟨1, "u1", sampleNaverPayment.toNaverPaymentFields⟩,
                      ⟨2, "u2", sampleNaverPayment.toNaverPaymentFields⟩],
    naverItems := [⟨1, sampleNaverItem1⟩, ⟨2, sampleNaverItem2⟩],
    coupangPayments := [⟨1, "u1", sampleCoupangPayment.toCoupangPaymentFields⟩,
                        ⟨2, "u2", sampleCoupangPayment.toCoupangPaymentFields⟩],
    coupangItems := [⟨1, sampleCoupangItem1⟩, ⟨2, sampleCoupangItem1⟩],
    nextNaverId := 3, nextCoupangId := 3 }

/-- A database holding one ledger account with no password. -/
def dbA : DB := { emptyDB with ledgerAccounts := [⟨"a1", "nick", none, none⟩] }

/-- One ledger account with an already-expired password next to a fresh
one. -/
def dbExpired : DB :=
  { emptyDB with ledgerAccounts :=
      [⟨"aOld", "old", some "5f4dcc3b", some "2020-01-01T00:00:00+00:00"⟩,
       ⟨"aNew", "new", none, none⟩] }

/-- Sample ledger entry input. -/
def sampleEntry : LedgerEntryInput :=
  { accountId := "a1", entryType := "expense", amount := 12000, date := "2024-03-02",
    title := "lunch", category := "food", platform := some "offline", url := none,
    merchant := some "diner", paymentMethod := some "card", memo := none,
    color := none, tags := ["tagA", "tagB"] }

/-- Updated ledger entry input. -/
def sampleEntry2 : LedgerEntryInput :=
  { accountId := "a1", entryType := "expense", amount := 15000, date := "2024-03-02",
    title := "dinner", category := "food", platform := none, url := none,
    merchant := none, paymentMethod := none, memo := some "with friends",
    color := some "#ff0000", tags := ["tagC"] }

/-- Failure oracle: the operation's statement 2 (the first credential
INSERT of `update_account_credentials`) fails. -/
def failAt2 : Nat → Bool := fun i => i == 2

/-- Failure oracle: the operation's statement 3 (the second credential
INSERT of `update_account_credentials`) fails. -/
def failAt3 : Nat → Bool := fun i => i == 3

/-- A database with one matching payment per provider for the search. -/
def dbSearch : DB :=
  { emptyDB with
    users := [⟨"u1", "naver", "me", "c1"⟩],
    naverPayments := [⟨1, "u1", { sampleNaverPayment.toNaverPaymentFields with
      statusCode := some "DELIVERED", paidAt := "2024-05-02T10:00:00" }⟩],
    naverItems := [⟨1, sampleNaverItem1⟩, ⟨1, sampleNaverItem2⟩],
    coupangPayments := [⟨1, "u1", sampleCoupangPayment.toCoupangPaymentFields⟩],
    coupangItems := [⟨1, sampleCoupangItem1⟩],
    nextNaverId := 2, nextCoupangId := 2 }


/-! ## Helper lemmas -/


theorem upsertRow_of_any_eq_false {hit : ρ → Bool} {upd : ρ → ρ} {ins : ρ} {tbl : List ρ}
    (h : tbl.any hit = false) : upsertRow hit upd ins tbl = tbl ++ [ins] := by
  simp [upsertRow, h]

theorem upsertRow_eq_self {hit : ρ → Bool} {upd : ρ → ρ} {ins : ρ} {tbl : List ρ}
    (h1 : tbl.any hit = true) (h2 : ∀ r ∈ tbl, hit r = true → upd r = r) :
    upsertRow hit upd ins tbl = tbl := by
  have hmap : ∀ r ∈ tbl, (if hit r then upd r else r) = r := by
    intro r hr
    by_cases hc : hit r = true
    · simp [hc, h2 r hr hc]
    · simp [hc]
  calc upsertRow hit upd ins tbl = tbl.map (fun r => if hit r then upd r else r) := by
        simp [upsertRow, h1]
    _ = tbl := by simp [List.map_congr_left hmap]

theorem upsertRow_mem_upd {hit : ρ → Bool} {upd : ρ → ρ} {ins : ρ} {tbl : List ρ} {r : ρ}
    (h1 : r ∈ tbl) (h2 : hit r = true) : upd r ∈ upsertRow hit upd ins tbl := by
  have hany : tbl.any hit = true := List.any_eq_true.mpr ⟨r, h1, h2⟩
  simp only [upsertRow, hany, if_pos]
  exact List.mem_map.mpr ⟨r, h1, by simp [h2]⟩

theorem find?_append_left_none {p : α → Bool} {l1 l2 : List α}
    (h : l1.any p = false) : (l1 ++ l2).find? p = l2.find? p := by
  induction l1 with
  | nil => simp
  | cons a as ih =>
    rw [List.any_cons] at h
    have ha : p a = false := by
      cases hpa : p a <;> simp [hpa] at h ⊢
    have has : as.any p = false := by
      cases hs : as.any p <;> simp [hs, ha] at h ⊢
    simpa [List.find?, ha] using ih has

theorem naverHeaderUpdate_insert (n : Nat) (u : String) (p : NaverPayment) :
    naverHeaderUpdate p (naverHeaderInsert n u p) = naverHeaderInsert n u p := by
  rfl

theorem coupangHeaderUpdate_insert (n : Nat) (u : String) (p : CoupangPayment) :
    coupangHeaderUpdate p (coupangHeaderInsert n u p) = coupangHeaderInsert n u p := by
  rfl

theorem naverItemUpdate_insert (pk : Nat) (it : NaverItemFields) :
    naverItemUpdate it (naverItemInsert pk it) = naverItemInsert pk it := by
  rfl

theorem coupangItemUpdate_insert (pk : Nat) (it : CoupangItemFields) :
    coupangItemUpdate it (coupangItemInsert pk it) = coupangItemInsert pk it := by
  rfl

theorem naverItemsTx_fresh (pk : Nat) (idx : Nat) (items : List NaverItemFields)
    (tbl : List NaverItemRow)
    (hfr : ∀ r ∈ tbl, ∀ it ∈ items, naverItemHit pk it.lineNo r = false)
    (hnd : items.Pairwise (fun i j => i.lineNo ≠ j.lineNo)) :
    naverItemsTx (fun _ => false) pk idx items tbl
      = some (tbl ++ items.map (naverItemInsert pk)) := by
  induction items generalizing idx tbl with
  | nil => simp [naverItemsTx]
  | cons it rest ih =>
    have hany : tbl.any (naverItemHit pk it.lineNo) = false := by
      rw [List.any_eq_false]
      intro r hr
      simp [hfr r hr it (by simp)]
    rw [List.pairwise_cons] at hnd
    rw [naverItemsTx, if_neg (by simp)]
    rw [upsertRow_of_any_eq_false hany]
    rw [ih (idx + 1)]
    · simp
    · intro r hr it2 hit2
      rcases List.mem_append.mp hr with hr1 | hr2
      · exact hfr r hr1 it2 (by simp [hit2])
      · have : r = naverItemInsert pk it := by simpa using hr2
        subst this
        have : it.lineNo ≠ it2.lineNo := hnd.1 it2 hit2
        simp [naverItemHit, naverItemInsert, this]
    · exact hnd.2

theorem naverItemsTx_id (pk : Nat) (idx : Nat) (items : List NaverItemFields)
    (tbl : List NaverItemRow)
    (hhit : ∀ it ∈ items, ∃ r ∈ tbl, naverItemHit pk it.lineNo r = true)
    (hid : ∀ it ∈ items, ∀ r ∈ tbl, naverItemHit pk it.lineNo r = true → naverItemUpdate it r = r) :
    naverItemsTx (fun _ => false) pk idx items tbl = some tbl := by
  induction items generalizing idx with
  | nil => simp [naverItemsTx]
  | cons it rest ih =>
    have hany : tbl.any (naverItemHit pk it.lineNo) = true := by
      rcases hhit it (by simp) with ⟨r, hr, hh⟩
      exact List.any_eq_true.mpr ⟨r, hr, hh⟩
    rw [naverItemsTx, if_neg (by simp)]
    rw [upsertRow_eq_self hany (hid it (by simp))]
    exact ih (idx + 1) (fun it2 h2 => hhit it2 (by simp [h2])) (fun it2 h2 => hid it2 (by simp [h2]))

theorem coupangItemsTx_fresh (pk : Nat) (idx : Nat) (items : List CoupangItemFields)
    (tbl : List CoupangItemRow)
    (hfr : ∀ r ∈ tbl, ∀ it ∈ items, coupangItemHit pk it.lineNo r = false)
    (hnd : items.Pairwise (fun i j => i.lineNo ≠ j.lineNo)) :
    coupangItemsTx (fun _ => false) pk idx items tbl
      = some (tbl ++ items.map (coupangItemInsert pk)) := by
  induction items generalizing idx tbl with
  | nil => simp [coupangItemsTx]
  | cons it rest ih =>
    have hany : tbl.any (coupangItemHit pk it.lineNo) = false := by
      rw [List.any_eq_false]
      intro r hr
      simp [hfr r hr it (by simp)]
    rw [List.pairwise_cons] at hnd
    rw [coupangItemsTx, if_neg (by simp)]
    rw [upsertRow_of_any_eq_false hany]
    rw [ih (idx + 1)]
    · simp
    · intro r hr it2 hit2
      rcases List.mem_append.mp hr with hr1 | hr2
      · exact hfr r hr1 it2 (by simp [hit2])
      · have : r = coupangItemInsert pk it := by simpa using hr2
        subst this
        have : it.lineNo ≠ it2.lineNo := hnd.1 it2 hit2
        simp [coupangItemHit, coupangItemInsert, this]
    · exact hnd.2

theorem coupangItemsTx_id (pk : Nat) (idx : Nat) (items : List CoupangItemFields)
    (tbl : List CoupangItemRow)
    (hhit : ∀ it ∈ items, ∃ r ∈ tbl, coupangItemHit pk it.lineNo r = true)
    (hid : ∀ it ∈ items, ∀ r ∈ tbl, coupangItemHit pk it.lineNo r = true → coupangItemUpdate it r = r) :
    coupangItemsTx (fun _ => false) pk idx items tbl = some tbl := by
  induction items generalizing idx with
  | nil => simp [coupangItemsTx]
  | cons it rest ih =>
    have hany : tbl.any (coupangItemHit pk it.lineNo) = true := by
      rcases hhit it (by simp) with ⟨r, hr, hh⟩
      exact List.any_eq_true.mpr ⟨r, hr, hh⟩
    rw [coupangItemsTx, if_neg (by simp)]
    rw [upsertRow_eq_self hany (hid it (by simp))]
    exact ih (idx + 1) (fun it2 h2 => hhit it2 (by simp [h2])) (fun it2 h2 => hid it2 (by simp [h2]))

theorem save_naver_payment_fresh (u : String) (p : NaverPayment) (db : DB)
    (hu : userExists u db = true)
    (hhdr : db.naverPayments.any (naverHit u p.payId) = false)
    (hitems : ∀ r ∈ db.naverItems, r.paymentId ≠ db.nextNaverId)
    (hnd : (p.items.map (fun it => it.lineNo)).Nodup) :
    save_naver_payment u p db =
      { db with
        naverPayments := db.naverPayments ++ [naverHeaderInsert db.nextNaverId u p],
        naverItems := db.naverItems ++ p.items.map (naverItemInsert db.nextNaverId),
        nextNaverId := db.nextNaverId + 1 } := by
  have hins : naverHit u p.payId (naverHeaderInsert db.nextNaverId u p) = true := by
    simp [naverHit, naverHeaderInsert]
  have hfind : (db.naverPayments ++ [naverHeaderInsert db.nextNaverId u p]).find?
      (naverHit u p.payId) = some (naverHeaderInsert db.nextNaverId u p) := by
    rw [find?_append_left_none hhdr]
    exact List.find?_cons_of_pos [] hins
  have hfr : ∀ r ∈ db.naverItems, ∀ it ∈ p.items,
      naverItemHit db.nextNaverId it.lineNo r = false := by
    intro r hr it _
    simp [naverItemHit, hitems r hr]
  have hpw : p.items.Pairwise (fun i j => i.lineNo ≠ j.lineNo) :=
    List.pairwise_map.mp hnd
  unfold save_naver_payment save_naver_payment_tx
  simp only [hhdr, hu, Bool.not_false, Bool.not_true, Bool.true_and, Bool.and_false,
    Bool.or_false, Bool.false_or, if_neg, ite_false, Bool.false_eq_true, if_false]
  rw [upsertRow_of_any_eq_false hhdr]
  simp only [hfind]
  have hid2 : (naverHeaderInsert db.nextNaverId u p).id = db.nextNaverId := rfl
  rw [hid2, naverItemsTx_fresh db.nextNaverId 2 p.items db.naverItems hfr hpw]

theorem save_naver_payment_idem (u : String) (p : NaverPayment) (db : DB)
    (hu : userExists u db = true)
    (hhdr : db.naverPayments.any (naverHit u p.payId) = false)
    (hitems : ∀ r ∈ db.naverItems, r.paymentId ≠ db.nextNaverId)
    (hnd : (p.items.map (fun it => it.lineNo)).Nodup) :
    save_naver_payment u p (save_naver_payment u p db) = save_naver_payment u p db := by
  rw [save_naver_payment_fresh u p db hu hhdr hitems hnd]
  set ins := naverHeaderInsert db.nextNaverId u p with hins_def
  have hins : naverHit u p.payId ins = true := by
    simp [naverHit, hins_def, naverHeaderInsert]
  have hany1 : (db.naverPayments ++ [ins]).any (naverHit u p.payId) = true := by
    simp [List.any_append, hins]
  have hupd : ∀ r ∈ db.naverPayments ++ [ins], naverHit u p.payId r = true →
      naverHeaderUpdate p r = r := by
    intro r hr hh
    rcases List.mem_append.mp hr with hr1 | hr2
    · rw [List.any_eq_false] at hhdr
      exact absurd hh (hhdr r hr1)
    · have : r = ins := by simpa using hr2
      subst this
      exact naverHeaderUpdate_insert db.nextNaverId u p
  have hfind : (db.naverPayments ++ [ins]).find? (naverHit u p.payId) = some ins := by
    rw [find?_append_left_none hhdr]
    exact List.find?_cons_of_pos [] hins
  have hhit2 : ∀ it ∈ p.items, ∃ r ∈ db.naverItems ++ p.items.map (naverItemInsert db.nextNaverId),
      naverItemHit db.nextNaverId it.lineNo r = true := by
    intro it hit
    refine ⟨naverItemInsert db.nextNaverId it, ?_, ?_⟩
    · exact List.mem_append.mpr (Or.inr (List.mem_map.mpr ⟨it, hit, rfl⟩))
    · simp [naverItemHit, naverItemInsert]
  have hid2 : ∀ it ∈ p.items, ∀ r ∈ db.naverItems ++ p.items.map (naverItemInsert db.nextNaverId),
      naverItemHit db.nextNaverId it.lineNo r = true → naverItemUpdate it r = r := by
    intro it hit r hr hh
    rcases List.mem_append.mp hr with hr1 | hr2
    · have : r.paymentId ≠ db.nextNaverId := hitems r hr1
      simp [naverItemHit, this] at hh
    · rcases List.mem_map.mp hr2 with ⟨it2, hit2, rfl⟩
      have hln : it2.lineNo = it.lineNo := by
        simpa [naverItemHit, naverItemInsert] using hh
      have : it2 = it := List.inj_on_of_nodup_map hnd hit2 hit hln
      subst this
      exact naverItemUpdate_insert db.nextNaverId it2
  unfold save_naver_payment save_naver_payment_tx
  simp only [hany1]
  rw [upsertRow_eq_self hany1 hupd]
  simp only [Bool.not_true, Bool.false_and, Bool.or_false, Bool.false_or, ite_false,
    Bool.false_eq_true, if_false]
  simp only [hfind]
  have hinsid : ins.id = db.nextNaverId := rfl
  rw [hinsid, naverItemsTx_id db.nextNaverId 2 p.items _ hhit2 hid2]
  simp

theorem save_coupang_payment_fresh (u : String) (p : CoupangPayment) (db : DB)
    (hu : userExists u db = true)
    (hhdr : db.coupangPayments.any (coupangHit u p.orderId) = false)
    (hitems : ∀ r ∈ db.coupangItems, r.paymentId ≠ db.nextCoupangId)
    (hnd : (p.items.map (fun it => it.lineNo)).Nodup) :
    save_coupang_payment u p db =
      { db with
        coupangPayments := db.coupangPayments ++ [coupangHeaderInsert db.nextCoupangId u p],
        coupangItems := db.coupangItems ++ p.items.map (coupangItemInsert db.nextCoupangId),
        nextCoupangId := db.nextCoupangId + 1 } := by
  have hins : coupangHit u p.orderId (coupangHeaderInsert db.nextCoupangId u p) = true := by
    simp [coupangHit, coupangHeaderInsert]
  have hfind : (db.coupangPayments ++ [coupangHeaderInsert db.nextCoupangId u p]).find?
      (coupangHit u p.orderId) = some (coupangHeaderInsert db.nextCoupangId u p) := by
    rw [find?_append_left_none hhdr]
    exact List.find?_cons_of_pos [] hins
  have hfr : ∀ r ∈ db.coupangItems, ∀ it ∈ p.items,
      coupangItemHit db.nextCoupangId it.lineNo r = false := by
    intro r hr it _
    simp [coupangItemHit, hitems r hr]
  have hpw : p.items.Pairwise (fun i j => i.lineNo ≠ j.lineNo) :=
    List.pairwise_map.mp hnd
  unfold save_coupang_payment save_coupang_payment_tx
  simp only [hhdr, hu, Bool.not_false, Bool.not_true, Bool.true_and, Bool.and_false,
    Bool.or_false, Bool.false_or, if_neg, ite_false, Bool.false_eq_true, if_false]
  rw [upsertRow_of_any_eq_false hhdr]
  simp only [hfind]
  have hid2 : (coupangHeaderInsert db.nextCoupangId u p).id = db.nextCoupangId := rfl
  rw [hid2, coupangItemsTx_fresh db.nextCoupangId 2 p.items db.coupangItems hfr hpw]

theorem save_coupang_payment_idem (u : String) (p : CoupangPayment) (db : DB)
    (hu : userExists u db = true)
    (hhdr : db.coupangPayments.any (coupangHit u p.orderId) = false)
    (hitems : ∀ r ∈ db.coupangItems, r.paymentId ≠ db.nextCoupangId)
    (hnd : (p.items.map (fun it => it.lineNo)).Nodup) :
    save_coupang_payment u p (save_coupang_payment u p db) = save_coupang_payment u p db := by
  rw [save_coupang_payment_fresh u p db hu hhdr hitems hnd]
  set ins := coupangHeaderInsert db.nextCoupangId u p with hins_def
  have hins : coupangHit u p.orderId ins = true := by
    simp [coupangHit, hins_def, coupangHeaderInsert]
  have hany1 : (db.coupangPayments ++ [ins]).any (coupangHit u p.orderId) = true := by
    simp [List.any_append, hins]
  have hupd : ∀ r ∈ db.coupangPayments ++ [ins], coupangHit u p.orderId r = true →
      coupangHeaderUpdate p r = r := by
    intro r hr hh
    rcases List.mem_append.mp hr with hr1 | hr2
    · rw [List.any_eq_false] at hhdr
      exact absurd hh (hhdr r hr1)
    · have : r = ins := by simpa using hr2
      subst this
      exact coupangHeaderUpdate_insert db.nextCoupangId u p
  have hfind : (db.coupangPayments ++ [ins]).find? (coupangHit u p.orderId) = some ins := by
    rw [find?_append_left_none hhdr]
    exact List.find?_cons_of_pos [] hins
  have hhit2 : ∀ it ∈ p.items,
      ∃ r ∈ db.coupangItems ++ p.items.map (coupangItemInsert db.nextCoupangId),
      coupangItemHit db.nextCoupangId it.lineNo r = true := by
    intro it hit
    refine ⟨coupangItemInsert db.nextCoupangId it, ?_, ?_⟩
    · exact List.mem_append.mpr (Or.inr (List.mem_map.mpr ⟨it, hit, rfl⟩))
    · simp [coupangItemHit, coupangItemInsert]
  have hid2 : ∀ it ∈ p.items,
      ∀ r ∈ db.coupangItems ++ p.items.map (coupangItemInsert db.nextCoupangId),
      coupangItemHit db.nextCoupangId it.lineNo r = true → coupangItemUpdate it r = r := by
    intro it hit r hr hh
    rcases List.mem_append.mp hr with hr1 | hr2
    · have : r.paymentId ≠ db.nextCoupangId := hitems r hr1
      simp [coupangItemHit, this] at hh
    · rcases List.mem_map.mp hr2 with ⟨it2, hit2, rfl⟩
      have hln : it2.lineNo = it.lineNo := by
        simpa [coupangItemHit, coupangItemInsert] using hh
      have : it2 = it := List.inj_on_of_nodup_map hnd hit2 hit hln
      subst this
      exact coupangItemUpdate_insert db.nextCoupangId it2
  unfold save_coupang_payment save_coupang_payment_tx
  simp only [hany1]
  rw [upsertRow_eq_self hany1 hupd]
  simp only [Bool.not_true, Bool.false_and, Bool.or_false, Bool.false_or, ite_false,
    Bool.false_eq_true, if_false]
  simp only [hfind]
  have hinsid : ins.id = db.nextCoupangId := rfl
  rw [hinsid, coupangItemsTx_id db.nextCoupangId 2 p.items _ hhit2 hid2]
  simp

theorem lexLt_irrefl (a : List Nat) : lexLt a a = false := by
  induction a with
  | nil => rfl
  | cons x xs ih => simp [lexLt, ih]

theorem lexLt_trans : ∀ {a b c : List Nat}, lexLt a b = true → lexLt b c = true → lexLt a c = true
  | [], [], _, hab, _ => by simp [lexLt] at hab
  | [], _ :: _, [], _, hbc => by simp [lexLt] at hbc
  | [], _ :: _, _ :: _, _, _ => by simp [lexLt]
  | _ :: _, [], _, hab, _ => by simp [lexLt] at hab
  | _ :: _, _ :: _, [], _, hbc => by simp [lexLt] at hbc
  | a :: as, b :: bs, c :: cs, hab, hbc => by
    simp only [lexLt] at hab hbc ⊢
    rcases Nat.lt_trichotomy a b with h1 | h1 | h1
    · rcases Nat.lt_trichotomy b c with h2 | h2 | h2
      · simp [Nat.lt_trans h1 h2]
      · subst h2
        simp [h1]
      · rw [if_neg (Nat.lt_asymm h2), if_pos h2] at hbc
        exact absurd hbc (by simp)
    · subst h1
      rw [if_neg (Nat.lt_irrefl a), if_neg (Nat.lt_irrefl a)] at hab
      rcases Nat.lt_trichotomy a c with h2 | h2 | h2
      · simp [h2]
      · subst h2
        rw [if_neg (Nat.lt_irrefl a), if_neg (Nat.lt_irrefl a)] at hbc ⊢
        exact lexLt_trans hab hbc
      · rw [if_neg (Nat.lt_asymm h2), if_pos h2] at hbc
        exact absurd hbc (by simp)
    · rw [if_neg (Nat.lt_asymm h1), if_pos h1] at hab
      exact absurd hab (by simp)

theorem lexLt_connex : ∀ {a b : List Nat}, lexLt a b = false → lexLt b a = false → a = b
  | [], [], _, _ => rfl
  | [], _ :: _, hab, _ => by simp [lexLt] at hab
  | _ :: _, [], _, hba => by simp [lexLt] at hba
  | a :: as, b :: bs, hab, hba => by
    simp only [lexLt] at hab hba
    rcases Nat.lt_trichotomy a b with h1 | h1 | h1
    · rw [if_pos h1] at hab
      exact absurd hab (by simp)
    · subst h1
      rw [if_neg (Nat.lt_irrefl a), if_neg (Nat.lt_irrefl a)] at hab hba
      rw [lexLt_connex hab hba]
    · rw [if_pos h1] at hba
      exact absurd hba (by simp)

theorem lexLt_asymm {a b : List Nat} (h : lexLt a b = true) : lexLt b a = false := by
  cases hba : lexLt b a with
  | false => rfl
  | true => have := lexLt_trans h hba; rw [lexLt_irrefl] at this; exact absurd this (by simp)

theorem strLt_asymm {a b : String} (h : strLt a b = true) : strLt b a = false :=
  lexLt_asymm h

theorem strLt_connex {a b : String} (hab : strLt a b = false) (hba : strLt b a = false) :
    a.toList.map Char.toNat = b.toList.map Char.toNat :=
  lexLt_connex hab hba

theorem strLt_neg_trans {a b c : String} (hab : strLt a b = false) (hbc : strLt b c = false) :
    strLt a c = false := by
  cases hac : strLt a c with
  | false => rfl
  | true =>
    exfalso
    have hconn := lexLt_connex (a := a.toList.map Char.toNat) (b := b.toList.map Char.toNat) hab
    cases hba : strLt b a with
    | false =>
      have heq := hconn hba
      unfold strLt at hac hbc
      rw [← heq] at hbc
      rw [hbc] at hac
      exact absurd hac (by simp)
    | true =>
      have := lexLt_trans (a := b.toList.map Char.toNat) hba hac
      unfold strLt at hbc
      rw [this] at hbc
      exact absurd hbc (by simp)

theorem mem_insertBy {le : α → α → Bool} {x z : α} {l : List α} :
    z ∈ insertBy le x l ↔ z = x ∨ z ∈ l := by
  induction l with
  | nil => simp [insertBy]
  | cons y ys ih =>
    by_cases h : le x y = true
    · simp [insertBy, h]
    · simp only [insertBy, h, if_neg, Bool.false_eq_true, ite_false, List.mem_cons, ih]
      tauto

theorem length_insertBy (le : α → α → Bool) (x : α) (l : List α) :
    (insertBy le x l).length = l.length + 1 := by
  induction l with
  | nil => rfl
  | cons y ys ih =>
    by_cases h : le x y = true <;> simp [insertBy, h, ih]

theorem length_sortBy (le : α → α → Bool) (l : List α) :
    (sortBy le l).length = l.length := by
  induction l with
  | nil => rfl
  | cons x xs ih => simp [sortBy, length_insertBy, ih]

theorem pairwise_insertBy {le : α → α → Bool}
    (htot : ∀ a b, le a b = false → le b a = true)
    (htrans : ∀ a b c, le a b = true → le b c = true → le a c = true)
    {x : α} {l : List α} (h : l.Pairwise (fun a b => le a b = true)) :
    (insertBy le x l).Pairwise (fun a b => le a b = true) := by
  induction l with
  | nil => simp [insertBy]
  | cons y ys ih =>
    rw [List.pairwise_cons] at h
    by_cases hxy : le x y = true
    · rw [insertBy, if_pos hxy, List.pairwise_cons]
      refine ⟨?_, List.pairwise_cons.mpr h⟩
      intro z hz
      rcases List.mem_cons.mp hz with rfl | hz'
      · exact hxy
      · exact htrans x y z hxy (h.1 z hz')
    · rw [insertBy, if_neg (by simp [hxy]), List.pairwise_cons]
      refine ⟨?_, ih h.2⟩
      intro z hz
      rcases mem_insertBy.mp hz with heq | hz'
      · subst heq
        exact htot _ _ (by simpa using hxy)
      · exact h.1 z hz'

theorem pairwise_sortBy {le : α → α → Bool}
    (htot : ∀ a b, le a b = false → le b a = true)
    (htrans : ∀ a b c, le a b = true → le b c = true → le a c = true)
    (l : List α) : (sortBy le l).Pairwise (fun a b => le a b = true) := by
  induction l with
  | nil => simp [sortBy]
  | cons x xs ih => exact pairwise_insertBy htot htrans ih

theorem save_naver_payment_tx_cases (fail : Nat → Bool) (u : String) (p : NaverPayment)
    (db : DB) : (save_naver_payment_tx fail u p db).2 = true
      ∨ (save_naver_payment_tx fail u p db).1 = db := by
  simp only [save_naver_payment_tx]
  repeat' split
  all_goals simp

theorem save_naver_payment_tx_rollback (fail : Nat → Bool) (u : String) (p : NaverPayment)
    (db : DB) (h : (save_naver_payment_tx fail u p db).2 = false) :
    (save_naver_payment_tx fail u p db).1 = db := by
  rcases save_naver_payment_tx_cases fail u p db with ht | heq
  · rw [ht] at h
    exact absurd h (by simp)
  · exact heq

theorem save_coupang_payment_tx_cases (fail : Nat → Bool) (u : String) (p : CoupangPayment)
    (db : DB) : (save_coupang_payment_tx fail u p db).2 = true
      ∨ (save_coupang_payment_tx fail u p db).1 = db := by
  simp only [save_coupang_payment_tx]
  repeat' split
  all_goals simp

theorem save_coupang_payment_tx_rollback (fail : Nat → Bool) (u : String) (p : CoupangPayment)
    (db : DB) (h : (save_coupang_payment_tx fail u p db).2 = false) :
    (save_coupang_payment_tx fail u p db).1 = db := by
  rcases save_coupang_payment_tx_cases fail u p db with ht | heq
  · rw [ht] at h
    exact absurd h (by simp)
  · exact heq

theorem insertCreds_fail_head (fail : Nat → Bool) (idx : Nat) (userId k v : String)
    (rest : List (String × String)) (db : DB) (h : fail idx = true) :
    insertCreds fail idx userId ((k, v) :: rest) db = (db, false) := by
  simp [insertCreds, h]

theorem update_account_credentials_partial (fail : Nat → Bool) (userId curl k v : String)
    (rest : List (String × String)) (db : DB)
    (h0 : fail 0 = false) (h1 : fail 1 = false) (h2 : fail 2 = true) :
    update_account_credentials fail userId curl ((k, v) :: rest) db
      = ({ db with
            users := db.users.map (fun u => if u.id == userId then { u with curl := curl } else u),
            credentials := db.credentials.filter (fun c => !(c.userId == userId)) }, false) := by
  unfold update_account_credentials
  rw [if_neg (by simp [h0])]
  rw [if_neg (by simp [h1])]
  exact insertCreds_fail_head fail 2 userId k v rest _ h2

theorem save_naver_payment_tx_ledger_frame (fail : Nat → Bool) (u : String) (p : NaverPayment)
    (db : DB) :
    ((save_naver_payment_tx fail u p db).1).ledgerAccounts = db.ledgerAccounts := by
  simp only [save_naver_payment_tx]
  repeat' split
  all_goals rfl

theorem save_coupang_payment_tx_ledger_frame (fail : Nat → Bool) (u : String) (p : CoupangPayment)
    (db : DB) :
    ((save_coupang_payment_tx fail u p db).1).ledgerAccounts = db.ledgerAccounts := by
  simp only [save_coupang_payment_tx]
  repeat' split
  all_goals rfl

theorem insertCreds_ledger_frame (fail : Nat → Bool) (idx : Nat) (userId : String) :
    ∀ (headers : List (String × String)) (db : DB),
    ((insertCreds fail idx userId headers db).1).ledgerAccounts = db.ledgerAccounts := by
  intro headers
  induction headers generalizing idx with
  | nil => intro db; rfl
  | cons kv rest ih =>
    intro db
    rw [insertCreds]
    split
    · rfl
    · exact ih (idx + 1) _

theorem insertCredsOrReplace_ledger_frame (fail : Nat → Bool) (idx : Nat) (userId : String) :
    ∀ (headers : List (String × String)) (db : DB),
    ((insertCredsOrReplace fail idx userId headers db).1).ledgerAccounts = db.ledgerAccounts := by
  intro headers
  induction headers generalizing idx with
  | nil => intro db; rfl
  | cons kv rest ih =>
    intro db
    rw [insertCredsOrReplace]
    split
    · rfl
    · exact ih (idx + 1) _

theorem save_account_ledger_frame (fail : Nat → Bool) (userId provider aliasName curl : String)
    (headers : List (String × String)) (db : DB) :
    ((save_account fail userId provider aliasName curl headers db).1).ledgerAccounts
      = db.ledgerAccounts := by
  unfold save_account
  split
  · rfl
  · exact insertCredsOrReplace_ledger_frame fail 1 userId headers _

theorem update_account_credentials_ledger_frame (fail : Nat → Bool) (userId curl : String)
    (headers : List (String × String)) (db : DB) :
    ((update_account_credentials fail userId curl headers db).1).ledgerAccounts
      = db.ledgerAccounts := by
  unfold update_account_credentials
  split
  · rfl
  · split
    · rfl
    · exact insertCreds_ledger_frame fail 2 userId headers _

theorem purge_noExpired (now : String) (db : DB) :
    noExpiredPasswords now (check_and_reset_expired_passwords now db) := by
  intro a ha
  simp only [check_and_reset_expired_passwords] at ha
  rcases List.mem_map.mp ha with ⟨b, hb, rfl⟩
  by_cases h : expiredAt now b = true
  · rw [if_pos h]
    rfl
  · rw [if_neg h]
    simpa using h

theorem purge_entries (now : String) (db : DB) :
    (check_and_reset_expired_passwords now db).ledgerEntries = db.ledgerEntries := rfl

theorem create_ledger_account_noExpired (now expiresAt accountId nickname : String)
    (pwh : Option String) (db : DB) (hexp : strLt expiresAt now = false) :
    noExpiredPasswords now (create_ledger_account now expiresAt accountId nickname pwh db) := by
  intro a ha
  simp only [create_ledger_account] at ha
  rcases List.mem_append.mp ha with h1 | h2
  · exact purge_noExpired now db a h1
  · have ha2 : a = ⟨accountId, nickname, pwh, pwh.map (fun _ => expiresAt)⟩ := by
      simpa using h2
    subst ha2
    cases pwh <;> simp [expiredAt, hexp]

theorem update_ledger_password_noExpired (now expiresAt accountId hash : String)
    (db : DB) (hexp : strLt expiresAt now = false) :
    noExpiredPasswords now (update_ledger_password now expiresAt accountId hash db) := by
  intro a ha
  simp only [update_ledger_password] at ha
  rcases List.mem_map.mp ha with ⟨b, hb, rfl⟩
  by_cases h : (b.id == accountId) = true
  · simp [h, expiredAt, hexp]
  · simp only [h, Bool.false_eq_true, if_neg, ite_false]
    exact purge_noExpired now db b hb

theorem create_ledger_entry_noExpired (now entryId accountId : String)
    (entry : LedgerEntryInput) (db : DB)
    (hacc : (check_and_reset_expired_passwords now db).ledgerAccounts.any
      (fun a => a.id == accountId) = true)
    (hid : db.ledgerEntries.any (fun e => e.id == entryId) = false)
    (htags : hasDup entry.tags = false) :
    noExpiredPasswords now (create_ledger_entry now entryId accountId entry db) := by
  intro a ha
  simp only [create_ledger_entry, purge_entries, hacc, hid, htags, Bool.not_true,
    Bool.false_eq_true, if_neg, ite_false] at ha
  exact purge_noExpired now db a ha

theorem update_ledger_entry_noExpired (now entryId : String) (entry : LedgerEntryInput)
    (db : DB) (old : LedgerEntryRow)
    (hfind : db.ledgerEntries.find? (fun e => e.id == entryId) = some old)
    (htags : hasDup entry.tags = false) :
    noExpiredPasswords now (update_ledger_entry now entryId entry db) := by
  intro a ha
  simp only [update_ledger_entry, purge_entries, hfind, htags, Bool.false_eq_true,
    if_neg, ite_false] at ha
  exact purge_noExpired now db a ha

theorem delete_ledger_entry_noExpired (now entryId : String) (db : DB)
    (hany : db.ledgerEntries.any (fun e => e.id == entryId) = true) :
    noExpiredPasswords now (delete_ledger_entry now entryId db) := by
  intro a ha
  simp only [delete_ledger_entry, purge_entries, hany, Bool.not_true, Bool.false_eq_true,
    if_neg, ite_false] at ha
  exact purge_noExpired now db a ha

theorem delete_user_ledger_frame (uid : String) (db : DB) :
    (delete_user uid db).ledgerAccounts = db.ledgerAccounts := rfl

theorem naverItemsTx_nofail_isSome (pk : Nat) (items : List NaverItemFields) :
    ∀ (idx : Nat) (tbl : List NaverItemRow),
    ∃ tbl2, naverItemsTx (fun _ => false) pk idx items tbl = some tbl2 := by
  induction items with
  | nil => intro idx tbl; exact ⟨tbl, rfl⟩
  | cons it rest ih =>
    intro idx tbl
    rw [naverItemsTx, if_neg (by simp)]
    exact ih (idx + 1) _

theorem coupangItemsTx_nofail_isSome (pk : Nat) (items : List CoupangItemFields) :
    ∀ (idx : Nat) (tbl : List CoupangItemRow),
    ∃ tbl2, coupangItemsTx (fun _ => false) pk idx items tbl = some tbl2 := by
  induction items with
  | nil => intro idx tbl; exact ⟨tbl, rfl⟩
  | cons it rest ih =>
    intro idx tbl
    rw [coupangItemsTx, if_neg (by simp)]
    exact ih (idx + 1) _

theorem naverHit_update (u payId : String) (p : NaverPayment) (h : NaverHeaderRow) :
    naverHit u payId (naverHeaderUpdate p h) = naverHit u payId h := rfl

theorem coupangHit_update (u orderId : String) (p : CoupangPayment) (h : CoupangHeaderRow) :
    coupangHit u orderId (coupangHeaderUpdate p h) = coupangHit u orderId h := rfl

theorem save_naver_payment_mem_update (u : String) (p : NaverPayment) (db : DB)
    (h : NaverHeaderRow) (hmem : h ∈ db.naverPayments) (hhit : naverHit u p.payId h = true) :
    naverHeaderUpdate p h ∈ (save_naver_payment u p db).naverPayments := by
  have hany : db.naverPayments.any (naverHit u p.payId) = true :=
    List.any_eq_true.mpr ⟨h, hmem, hhit⟩
  have hmem2 : naverHeaderUpdate p h ∈ upsertRow (naverHit u p.payId) (naverHeaderUpdate p)
      (naverHeaderInsert db.nextNaverId u p) db.naverPayments := upsertRow_mem_upd hmem hhit
  unfold save_naver_payment save_naver_payment_tx
  simp only [hany, Bool.not_true, Bool.false_and, Bool.or_false, Bool.false_or,
    ite_false, Bool.false_eq_true, if_false]
  cases hfind : List.find? (naverHit u p.payId) (upsertRow (naverHit u p.payId)
      (naverHeaderUpdate p) (naverHeaderInsert db.nextNaverId u p) db.naverPayments) with
  | none =>
    rw [List.find?_eq_none] at hfind
    exact absurd (naverHit_update u p.payId p h ▸ hhit) (hfind _ hmem2)
  | some r =>
    obtain ⟨tbl2, htbl2⟩ := naverItemsTx_nofail_isSome r.id p.items 2 db.naverItems
    simp only [htbl2]
    exact hmem2

theorem save_coupang_payment_mem_update (u : String) (p : CoupangPayment) (db : DB)
    (h : CoupangHeaderRow) (hmem : h ∈ db.coupangPayments)
    (hhit : coupangHit u p.orderId h = true) :
    coupangHeaderUpdate p h ∈ (save_coupang_payment u p db).coupangPayments := by
  have hany : db.coupangPayments.any (coupangHit u p.orderId) = true :=
    List.any_eq_true.mpr ⟨h, hmem, hhit⟩
  have hmem2 : coupangHeaderUpdate p h ∈ upsertRow (coupangHit u p.orderId)
      (coupangHeaderUpdate p) (coupangHeaderInsert db.nextCoupangId u p) db.coupangPayments :=
    upsertRow_mem_upd hmem hhit
  unfold save_coupang_payment save_coupang_payment_tx
  simp only [hany, Bool.not_true, Bool.false_and, Bool.or_false, Bool.false_or,
    ite_false, Bool.false_eq_true, if_false]
  cases hfind : List.find? (coupangHit u p.orderId) (upsertRow (coupangHit u p.orderId)
      (coupangHeaderUpdate p) (coupangHeaderInsert db.nextCoupangId u p) db.coupangPayments) with
  | none =>
    rw [List.find?_eq_none] at hfind
    exact absurd (coupangHit_update u p.orderId p h ▸ hhit) (hfind _ hmem2)
  | some r =>
    obtain ⟨tbl2, htbl2⟩ := coupangItemsTx_nofail_isSome r.id p.items 2 db.coupangItems
    simp only [htbl2]
    exact hmem2

/-! ## Claims -/

/-- C1: deleting an owner via `delete_user` removes exactly that owner's
credential rows, payment header rows (both provider shapes), and those
payments' line-item rows (via the declared `ON DELETE CASCADE` chain), and
leaves every other owner's rows — and all ledger tables — unchanged. -/
theorem claim_C1_delete_user_cascades_exactly (uid : String) (db : DB) :
    (∀ usr : UserRow, usr ∈ (delete_user uid db).users ↔ usr ∈ db.users ∧ usr.id ≠ uid)
    ∧ (∀ c : CredRow, c ∈ (delete_user uid db).credentials ↔
        c ∈ db.credentials ∧ c.userId ≠ uid)
    ∧ (∀ hd : NaverHeaderRow, hd ∈ (delete_user uid db).naverPayments ↔
        hd ∈ db.naverPayments ∧ hd.userId ≠ uid)
    ∧ (∀ it : NaverItemRow, it ∈ (delete_user uid db).naverItems ↔
        it ∈ db.naverItems ∧ ¬ ∃ hd ∈ db.naverPayments, hd.userId = uid ∧ hd.id = it.paymentId)
    ∧ (∀ hd : CoupangHeaderRow, hd ∈ (delete_user uid db).coupangPayments ↔
        hd ∈ db.coupangPayments ∧ hd.userId ≠ uid)
    ∧ (∀ it : CoupangItemRow, it ∈ (delete_user uid db).coupangItems ↔
        it ∈ db.coupangItems ∧ ¬ ∃ hd ∈ db.coupangPayments, hd.userId = uid ∧ hd.id = it.paymentId)
    ∧ (delete_user uid db).ledgerAccounts = db.ledgerAccounts
    ∧ (delete_user uid db).ledgerEntries = db.ledgerEntries
    ∧ (delete_user uid db).ledgerTags = db.ledgerTags
    ∧ (delete_user uid db).ledgerHistory = db.ledgerHistory := by
  refine ⟨?_, ?_, ?_, ?_, ?_, ?_, rfl, rfl, rfl, rfl⟩
  · intro usr
    simp [delete_user, List.mem_filter]
  · intro c
    simp [delete_user, List.mem_filter]
  · intro hd
    simp [delete_user, List.mem_filter]
  · intro it
    simp [delete_user, List.mem_filter, List.any_eq_true]
  · intro hd
    simp [delete_user, List.mem_filter]
  · intro it
    simp [delete_user, List.mem_filter, List.any_eq_true]

/-- C1 witness: a concrete two-owner database where deleting `u1` removes
exactly `u1`'s credential, headers and items and keeps `u2`'s. -/
theorem claim_C1_witness :
    (delete_user "u1" dbTwoOwners).users = [⟨"u2", "coupang", "you", "c2"⟩]
    ∧ (delete_user "u1" dbTwoOwners).credentials = [⟨"u2", "k2", "v2"⟩]
    ∧ (delete_user "u1" dbTwoOwners).naverPayments
        = [⟨2, "u2", sampleNaverPayment.toNaverPaymentFields⟩]
    ∧ (delete_user "u1" dbTwoOwners).naverItems = [⟨2, sampleNaverItem2⟩]
    ∧ (delete_user "u1" dbTwoOwners).coupangPayments
        = [⟨2, "u2", sampleCoupangPayment.toCoupangPaymentFields⟩]
    ∧ (delete_user "u1" dbTwoOwners).coupangItems = [⟨2, sampleCoupangItem1⟩]
    ∧ ((⟨"u2", "k2", "v2"⟩ : CredRow) ∈ (delete_user "u1" dbTwoOwners).credentials
        ↔ (⟨"u2", "k2", "v2"⟩ : CredRow) ∈ dbTwoOwners.credentials ∧ ("u2" : String) ≠ "u1") := by
  refine ⟨by decide, by decide, by decide, by decide, by decide, by decide, ?_⟩
  exact (claim_C1_delete_user_cascades_exactly "u1" dbTwoOwners).2.1 ⟨"u2", "k2", "v2"⟩

/-- C2 counterexample: `migrate_coupang_tables` discards the result of every
column-add statement (`let _ = conn.execute(&sql, []);`), so a failure that
is NOT of the "column already exists" class — here "no such table" — is
still swallowed and the migration reports success, contradicting the claim
that such a failure is propagated to the caller. -/
theorem claim_C2_counterexample :
    migrate_coupang_tables (fun (_ : Unit) _ => Except.error "no such table: tbl_coupang_payment") ()
      = Except.ok ()
    ∧ isDuplicateColumnError "no such table: tbl_coupang_payment" = false := by
  constructor
  · rfl
  · decide

/-- C2 amended: every failure of a column-add statement — whatever its kind —
is treated as success: the statement's effect is skipped, the remaining
columns are still attempted, and `migrate_coupang_tables` always returns
`Ok`. -/
theorem claim_C2_amended_all_failures_swallowed {σ : Type}
    (exec : σ → String → Except String σ) (s : σ) :
    ∃ s2, migrate_coupang_tables exec s = Except.ok s2 :=
  ⟨_, rfl⟩

/-- C3: from a state where the (owner, external id) pair is absent (and the
AUTOINCREMENT counter fresh, line numbers distinct, the owner present),
syncing the identical payload twice yields exactly one header row for that
key and exactly one line-item row per payload item, and the second run is a
no-op on the stored state — for both provider shapes. -/
theorem claim_C3_sync_idempotent (u : String) (p : NaverPayment) (q : CoupangPayment) (db : DB)
    (hu : userExists u db = true)
    (hhdrN : db.naverPayments.any (naverHit u p.payId) = false)
    (hitN : ∀ r ∈ db.naverItems, r.paymentId ≠ db.nextNaverId)
    (hndN : (p.items.map (fun it => it.lineNo)).Nodup)
    (hhdrC : db.coupangPayments.any (coupangHit u q.orderId) = false)
    (hitC : ∀ r ∈ db.coupangItems, r.paymentId ≠ db.nextCoupangId)
    (hndC : (q.items.map (fun it => it.lineNo)).Nodup) :
    (save_naver_payment u p (save_naver_payment u p db) = save_naver_payment u p db
      ∧ (save_naver_payment u p db).naverPayments.countP (naverHit u p.payId) = 1
      ∧ (save_naver_payment u p db).naverItems.countP
          (fun r => r.paymentId == db.nextNaverId) = p.items.length)
    ∧ (save_coupang_payment u q (save_coupang_payment u q db) = save_coupang_payment u q db
      ∧ (save_coupang_payment u q db).coupangPayments.countP (coupangHit u q.orderId) = 1
      ∧ (save_coupang_payment u q db).coupangItems.countP
          (fun r => r.paymentId == db.nextCoupangId) = q.items.length) := by
  refine ⟨⟨save_naver_payment_idem u p db hu hhdrN hitN hndN, ?_, ?_⟩,
          ⟨save_coupang_payment_idem u q db hu hhdrC hitC hndC, ?_, ?_⟩⟩
  · rw [save_naver_payment_fresh u p db hu hhdrN hitN hndN]
    have h0 : db.naverPayments.countP (naverHit u p.payId) = 0 := by
      rw [List.countP_eq_zero]
      rw [List.any_eq_false] at hhdrN
      exact hhdrN
    simp [List.countP_append, h0, List.countP_cons, naverHit, naverHeaderInsert]
  · rw [save_naver_payment_fresh u p db hu hhdrN hitN hndN]
    have h0 : db.naverItems.countP (fun r => r.paymentId == db.nextNaverId) = 0 := by
      rw [List.countP_eq_zero]
      intro r hr
      simp [hitN r hr]
    have h1 : (p.items.map (naverItemInsert db.nextNaverId)).countP
        (fun r => r.paymentId == db.nextNaverId) = p.items.length := by
      rw [List.countP_map]
      apply List.countP_eq_length.mpr
      intro it _
      simp [naverItemInsert]
    simp [List.countP_append, h0, h1]
  · rw [save_coupang_payment_fresh u q db hu hhdrC hitC hndC]
    have h0 : db.coupangPayments.countP (coupangHit u q.orderId) = 0 := by
      rw [List.countP_eq_zero]
      rw [List.any_eq_false] at hhdrC
      exact hhdrC
    simp [List.countP_append, h0, List.countP_cons, coupangHit, coupangHeaderInsert]
  · rw [save_coupang_payment_fresh u q db hu hhdrC hitC hndC]
    have h0 : db.coupangItems.countP (fun r => r.paymentId == db.nextCoupangId) = 0 := by
      rw [List.countP_eq_zero]
      intro r hr
      simp [hitC r hr]
    have h1 : (q.items.map (coupangItemInsert db.nextCoupangId)).countP
        (fun r => r.paymentId == db.nextCoupangId) = q.items.length := by
      rw [List.countP_map]
      apply List.countP_eq_length.mpr
      intro it _
      simp [coupangItemInsert]
    simp [List.countP_append, h0, h1]

/-- C3 witness: the double sync of the concrete sample payloads for owner
`u1` on a fresh store. -/
theorem claim_C3_witness :
    (save_naver_payment "u1" sampleNaverPayment (save_naver_payment "u1" sampleNaverPayment dbU)
        = save_naver_payment "u1" sampleNaverPayment dbU
      ∧ (save_naver_payment "u1" sampleNaverPayment dbU).naverPayments.countP
          (naverHit "u1" sampleNaverPayment.payId) = 1
      ∧ (save_naver_payment "u1" sampleNaverPayment dbU).naverItems.countP
          (fun r => r.paymentId == dbU.nextNaverId) = sampleNaverPayment.items.length)
    ∧ (save_coupang_payment "u1" sampleCoupangPayment
          (save_coupang_payment "u1" sampleCoupangPayment dbU)
        = save_coupang_payment "u1" sampleCoupangPayment dbU
      ∧ (save_coupang_payment "u1" sampleCoupangPayment dbU).coupangPayments.countP
          (coupangHit "u1" sampleCoupangPayment.orderId) = 1
      ∧ (save_coupang_payment "u1" sampleCoupangPayment dbU).coupangItems.countP
          (fun r => r.paymentId == dbU.nextCoupangId) = sampleCoupangPayment.items.length) :=
  claim_C3_sync_idempotent "u1" sampleNaverPayment sampleCoupangPayment dbU
    (by decide) (by decide) (by decide) (by decide) (by decide) (by decide) (by decide)

/-- C4 counterexample: resyncing a Coupang payment whose `merchant_tel` —
a header field outside the documented mutable subset (status fields,
amounts, merchant name) — changed, overwrites the stored value instead of
keeping it: after the second sync the stored row carries the new telephone
number. -/
theorem claim_C4_counterexample :
    ((save_coupang_payment "u1" sampleCoupangPayment2
        (save_coupang_payment "u1" sampleCoupangPayment dbU)).coupangPayments.map
      (fun r => r.fields.merchantTel)) = [some "070-2222"]
    ∧ sampleCoupangPayment.merchantTel = some "070-1111"
    ∧ sampleCoupangPayment2.merchantTel = some "070-2222"
    ∧ (some "070-2222" : Option String) ≠ sampleCoupangPayment.merchantTel := by
  decide

/-- C4 amended: the partial-overwrite boundary differs per provider.  On a
Naver header conflict exactly `external_id, service_type, status_code,
status_text, status_color, merchant_name, total_amount` take the payload's
values and every other column keeps its stored value; on a Coupang header
conflict every payload column except the key `order_id` takes the payload's
value. -/
theorem claim_C4_amended_header_overwrite_boundary (u : String) (p : NaverPayment)
    (q : CoupangPayment) (db db2 : DB) (h : NaverHeaderRow) (hc : CoupangHeaderRow)
    (hmem : h ∈ db.naverPayments) (hhit : naverHit u p.payId h = true)
    (hmemc : hc ∈ db2.coupangPayments) (hhitc : coupangHit u q.orderId hc = true) :
    (naverHeaderUpdate p h ∈ (save_naver_payment u p db).naverPayments
      ∧ (naverHeaderUpdate p h).fields.externalId = p.externalId
      ∧ (naverHeaderUpdate p h).fields.serviceType = p.serviceType
      ∧ (naverHeaderUpdate p h).fields.statusCode = p.statusCode
      ∧ (naverHeaderUpdate p h).fields.statusText = p.statusText
      ∧ (naverHeaderUpdate p h).fields.statusColor = p.statusColor
      ∧ (naverHeaderUpdate p h).fields.merchantName = p.merchantName
      ∧ (naverHeaderUpdate p h).fields.totalAmount = p.totalAmount
      ∧ (naverHeaderUpdate p h).id = h.id
      ∧ (naverHeaderUpdate p h).userId = h.userId
      ∧ (naverHeaderUpdate p h).fields.payId = h.fields.payId
      ∧ (naverHeaderUpdate p h).fields.paidAt = h.fields.paidAt
      ∧ (naverHeaderUpdate p h).fields.purchaserName = h.fields.purchaserName
      ∧ (naverHeaderUpdate p h).fields.merchantNo = h.fields.merchantNo
      ∧ (naverHeaderUpdate p h).fields.merchantTel = h.fields.merchantTel
      ∧ (naverHeaderUpdate p h).fields.merchantUrl = h.fields.merchantUrl
      ∧ (naverHeaderUpdate p h).fields.merchantImageUrl = h.fields.merchantImageUrl
      ∧ (naverHeaderUpdate p h).fields.merchantPaymentId = h.fields.merchantPaymentId
      ∧ (naverHeaderUpdate p h).fields.subMerchantName = h.fields.subMerchantName
      ∧ (naverHeaderUpdate p h).fields.subMerchantUrl = h.fields.subMerchantUrl
      ∧ (naverHeaderUpdate p h).fields.subMerchantPaymentId = h.fields.subMerchantPaymentId
      ∧ (naverHeaderUpdate p h).fields.isTaxType = h.fields.isTaxType
      ∧ (naverHeaderUpdate p h).fields.isOverseaTransfer = h.fields.isOverseaTransfer
      ∧ (naverHeaderUpdate p h).fields.productName = h.fields.productName
      ∧ (naverHeaderUpdate p h).fields.productCount = h.fields.productCount
      ∧ (naverHeaderUpdate p h).fields.productDetailUrl = h.fields.productDetailUrl
      ∧ (naverHeaderUpdate p h).fields.orderDetailUrl = h.fields.orderDetailUrl
      ∧ (naverHeaderUpdate p h).fields.discountAmount = h.fields.discountAmount
      ∧ (naverHeaderUpdate p h).fields.cupDepositAmount = h.fields.cupDepositAmount
      ∧ (naverHeaderUpdate p h).fields.restAmount = h.fields.restAmount
      ∧ (naverHeaderUpdate p h).fields.payEasycardAmount = h.fields.payEasycardAmount
      ∧ (naverHeaderUpdate p h).fields.payEasybankAmount = h.fields.payEasybankAmount
      ∧ (naverHeaderUpdate p h).fields.payRewardPointAmount = h.fields.payRewardPointAmount
      ∧ (naverHeaderUpdate p h).fields.payChargePointAmount = h.fields.payChargePointAmount
      ∧ (naverHeaderUpdate p h).fields.payGiftcardAmount = h.fields.payGiftcardAmount
      ∧ (naverHeaderUpdate p h).fields.benefitType = h.fields.benefitType
      ∧ (naverHeaderUpdate p h).fields.hasPlusMembership = h.fields.hasPlusMembership
      ∧ (naverHeaderUpdate p h).fields.benefitWaitingPeriod = h.fields.benefitWaitingPeriod
      ∧ (naverHeaderUpdate p h).fields.benefitExpectedAmount = h.fields.benefitExpectedAmount
      ∧ (naverHeaderUpdate p h).fields.benefitAmount = h.fields.benefitAmount
      ∧ (naverHeaderUpdate p h).fields.isMembership = h.fields.isMembership
      ∧ (naverHeaderUpdate p h).fields.isBranch = h.fields.isBranch
      ∧ (naverHeaderUpdate p h).fields.isLastSubscriptionRound = h.fields.isLastSubscriptionRound
      ∧ (naverHeaderUpdate p h).fields.isCafeSafePayment = h.fields.isCafeSafePayment
      ∧ (naverHeaderUpdate p h).fields.merchantCountryCode = h.fields.merchantCountryCode
      ∧ (naverHeaderUpdate p h).fields.merchantCountryName = h.fields.merchantCountryName
      ∧ (naverHeaderUpdate p h).fields.applicationCompleted = h.fields.applicationCompleted)
    ∧ (coupangHeaderUpdate q hc ∈ (save_coupang_payment u q db2).coupangPayments
      ∧ (coupangHeaderUpdate q hc).fields.externalId = q.externalId
      ∧ (coupangHeaderUpdate q hc).fields.statusCode = q.statusCode
      ∧ (coupangHeaderUpdate q hc).fields.statusText = q.statusText
      ∧ (coupangHeaderUpdate q hc).fields.statusColor = q.statusColor
      ∧ (coupangHeaderUpdate q hc).fields.orderedAt = q.orderedAt
      ∧ (coupangHeaderUpdate q hc).fields.paidAt = q.paidAt
      ∧ (coupangHeaderUpdate q hc).fields.merchantName = q.merchantName
      ∧ (coupangHeaderUpdate q hc).fields.merchantTel = q.merchantTel
      ∧ (coupangHeaderUpdate q hc).fields.merchantUrl = q.merchantUrl
      ∧ (coupangHeaderUpdate q hc).fields.merchantImageUrl = q.merchantImageUrl
      ∧ (coupangHeaderUpdate q hc).fields.productName = q.productName
      ∧ (coupangHeaderUpdate q hc).fields.productCount = q.productCount
      ∧ (coupangHeaderUpdate q hc).fields.productDetailUrl = q.productDetailUrl
      ∧ (coupangHeaderUpdate q hc).fields.orderDetailUrl = q.orderDetailUrl
      ∧ (coupangHeaderUpdate q hc).fields.totalAmount = q.totalAmount
      ∧ (coupangHeaderUpdate q hc).fields.totalOrderAmount = q.totalOrderAmount
      ∧ (coupangHeaderUpdate q hc).fields.totalCancelAmount = q.totalCancelAmount
      ∧ (coupangHeaderUpdate q hc).fields.discountAmount = q.discountAmount
      ∧ (coupangHeaderUpdate q hc).fields.restAmount = q.restAmount
      ∧ (coupangHeaderUpdate q hc).fields.mainPayType = q.mainPayType
      ∧ (coupangHeaderUpdate q hc).fields.payRocketBalanceAmount = q.payRocketBalanceAmount
      ∧ (coupangHeaderUpdate q hc).fields.payCardAmount = q.payCardAmount
      ∧ (coupangHeaderUpdate q hc).fields.payCouponAmount = q.payCouponAmount
      ∧ (coupangHeaderUpdate q hc).fields.payCoupangCashAmount = q.payCoupangCashAmount
      ∧ (coupangHeaderUpdate q hc).fields.payRocketBankAmount = q.payRocketBankAmount
      ∧ (coupangHeaderUpdate q hc).fields.wowInstantDiscount = q.wowInstantDiscount
      ∧ (coupangHeaderUpdate q hc).fields.rewardCashAmount = q.rewardCashAmount
      ∧ (coupangHeaderUpdate q hc).id = hc.id
      ∧ (coupangHeaderUpdate q hc).userId = hc.userId
      ∧ (coupangHeaderUpdate q hc).fields.orderId = hc.fields.orderId) := by
  constructor
  · refine ⟨save_naver_payment_mem_update u p db h hmem hhit, ?_⟩
    repeat' apply And.intro
    all_goals rfl
  · refine ⟨save_coupang_payment_mem_update u q db2 hc hmemc hhitc, ?_⟩
    repeat' apply And.intro
    all_goals rfl

/-- C4 witness: a resync of the concrete sample payloads against the
stored header rows, checking one overwritten and one preserved column per
provider. -/
theorem claim_C4_witness :
    naverHeaderUpdate sampleNaverPayment2 (naverHeaderInsert 0 "u1" sampleNaverPayment)
        ∈ (save_naver_payment "u1" sampleNaverPayment2
            (save_naver_payment "u1" sampleNaverPayment dbU)).naverPayments
    ∧ (naverHeaderUpdate sampleNaverPayment2
        (naverHeaderInsert 0 "u1" sampleNaverPayment)).fields.statusCode
        = sampleNaverPayment2.statusCode
    ∧ (naverHeaderUpdate sampleNaverPayment2
        (naverHeaderInsert 0 "u1" sampleNaverPayment)).fields.merchantTel
        = (naverHeaderInsert 0 "u1" sampleNaverPayment).fields.merchantTel
    ∧ coupangHeaderUpdate sampleCoupangPayment2 (coupangHeaderInsert 0 "u1" sampleCoupangPayment)
        ∈ (save_coupang_payment "u1" sampleCoupangPayment2
            (save_coupang_payment "u1" sampleCoupangPayment dbU)).coupangPayments
    ∧ (coupangHeaderUpdate sampleCoupangPayment2
        (coupangHeaderInsert 0 "u1" sampleCoupangPayment)).fields.merchantTel
        = sampleCoupangPayment2.merchantTel := by
  have h := claim_C4_amended_header_overwrite_boundary "u1" sampleNaverPayment2
    sampleCoupangPayment2
    (save_naver_payment "u1" sampleNaverPayment dbU)
    (save_coupang_payment "u1" sampleCoupangPayment dbU)
    (naverHeaderInsert 0 "u1" sampleNaverPayment)
    (coupangHeaderInsert 0 "u1" sampleCoupangPayment)
    (by decide) (by decide) (by decide) (by decide)
  exact ⟨h.1.1, rfl, rfl, h.2.1, rfl⟩

/-- C5 counterexample: resyncing the Naver payload whose line 1 changed
`rest_amount` and `memo` leaves the stored row's `rest_amount`/`memo` at
their old values — the Naver item upsert's `DO UPDATE SET` omits those two
columns, so the overwrite is not full-field. -/
theorem claim_C5_counterexample :
    ((save_naver_payment "u1" sampleNaverPayment2
        (save_naver_payment "u1" sampleNaverPayment dbU)).naverItems.map
      (fun r => (r.item.lineNo, r.item.restAmount, r.item.memo)))
      = [(1, some 0, none), (2, none, some "gift")]
    ∧ sampleNaverPayment2.items.map (fun it => (it.lineNo, it.restAmount, it.memo))
      = [(1, some 999, some "changed"), (2, none, some "gift")]
    ∧ (some (0 : Int), (none : Option String)) ≠ (some 999, some "changed") := by
  decide

/-- C5 amended: on an item-key conflict the Coupang upsert overwrites every
stored payload column, but the Naver upsert overwrites only `product_name,
image_url, info_url, quantity, unit_price, line_amount` and keeps the
stored `rest_amount` and `memo`. -/
theorem claim_C5_amended_item_overwrite_boundary (pk pkc : Nat) (it : NaverItemFields)
    (itc : CoupangItemFields) (tbl : List NaverItemRow) (tblc : List CoupangItemRow)
    (r : NaverItemRow) (rc : CoupangItemRow)
    (hmem : r ∈ tbl) (hhit : naverItemHit pk it.lineNo r = true)
    (hmemc : rc ∈ tblc) (hhitc : coupangItemHit pkc itc.lineNo rc = true) :
    (naverItemUpdate it r
        ∈ upsertRow (naverItemHit pk it.lineNo) (naverItemUpdate it) (naverItemInsert pk it) tbl
      ∧ (naverItemUpdate it r).item.productName = it.productName
      ∧ (naverItemUpdate it r).item.imageUrl = it.imageUrl
      ∧ (naverItemUpdate it r).item.infoUrl = it.infoUrl
      ∧ (naverItemUpdate it r).item.quantity = it.quantity
      ∧ (naverItemUpdate it r).item.unitPrice = it.unitPrice
      ∧ (naverItemUpdate it r).item.lineAmount = it.lineAmount
      ∧ (naverItemUpdate it r).item.restAmount = r.item.restAmount
      ∧ (naverItemUpdate it r).item.memo = r.item.memo
      ∧ (naverItemUpdate it r).paymentId = r.paymentId
      ∧ (naverItemUpdate it r).item.lineNo = r.item.lineNo)
    ∧ (coupangItemUpdate itc rc
        ∈ upsertRow (coupangItemHit pkc itc.lineNo) (coupangItemUpdate itc)
            (coupangItemInsert pkc itc) tblc
      ∧ (coupangItemUpdate itc rc).item.productId = itc.productId
      ∧ (coupangItemUpdate itc rc).item.vendorItemId = itc.vendorItemId
      ∧ (coupangItemUpdate itc rc).item.productName = itc.productName
      ∧ (coupangItemUpdate itc rc).item.imageUrl = itc.imageUrl
      ∧ (coupangItemUpdate itc rc).item.infoUrl = itc.infoUrl
      ∧ (coupangItemUpdate itc rc).item.brandName = itc.brandName
      ∧ (coupangItemUpdate itc rc).item.quantity = itc.quantity
      ∧ (coupangItemUpdate itc rc).item.unitPrice = itc.unitPrice
      ∧ (coupangItemUpdate itc rc).item.discountedUnitPrice = itc.discountedUnitPrice
      ∧ (coupangItemUpdate itc rc).item.combinedUnitPrice = itc.combinedUnitPrice
      ∧ (coupangItemUpdate itc rc).item.lineAmount = itc.lineAmount
      ∧ (coupangItemUpdate itc rc).item.restAmount = itc.restAmount
      ∧ (coupangItemUpdate itc rc).item.memo = itc.memo
      ∧ (coupangItemUpdate itc rc).paymentId = rc.paymentId
      ∧ (coupangItemUpdate itc rc).item.lineNo = rc.item.lineNo) := by
  constructor
  · refine ⟨upsertRow_mem_upd hmem hhit, ?_⟩
    repeat' apply And.intro
    all_goals rfl
  · refine ⟨upsertRow_mem_upd hmemc hhitc, ?_⟩
    repeat' apply And.intro
    all_goals rfl

/-- C5 witness: the item upserts applied to concretely stored rows. -/
theorem claim_C5_witness :
    naverItemUpdate sampleNaverItem1 (naverItemInsert 0 sampleNaverItem1)
        ∈ upsertRow (naverItemHit 0 sampleNaverItem1.lineNo)
            (naverItemUpdate sampleNaverItem1) (naverItemInsert 0 sampleNaverItem1)
            [naverItemInsert 0 sampleNaverItem1]
    ∧ (naverItemUpdate sampleNaverItem1 (naverItemInsert 0 sampleNaverItem1)).item.restAmount
        = (naverItemInsert 0 sampleNaverItem1).item.restAmount
    ∧ coupangItemUpdate sampleCoupangItem1 (coupangItemInsert 0 sampleCoupangItem1)
        ∈ upsertRow (coupangItemHit 0 sampleCoupangItem1.lineNo)
            (coupangItemUpdate sampleCoupangItem1) (coupangItemInsert 0 sampleCoupangItem1)
            [coupangItemInsert 0 sampleCoupangItem1]
    ∧ (coupangItemUpdate sampleCoupangItem1
        (coupangItemInsert 0 sampleCoupangItem1)).item.memo = sampleCoupangItem1.memo := by
  have h := claim_C5_amended_item_overwrite_boundary 0 0 sampleNaverItem1 sampleCoupangItem1
    [naverItemInsert 0 sampleNaverItem1] [coupangItemInsert 0 sampleCoupangItem1]
    (naverItemInsert 0 sampleNaverItem1) (coupangItemInsert 0 sampleCoupangItem1)
    (by decide) (by decide) (by decide) (by decide)
  exact ⟨h.1.1, rfl, h.2.1, rfl⟩

/-- C6 counterexample: `update_account_credentials` opens no transaction,
so when its second credential INSERT fails (statement 3), the operation
reports an error while the already-committed statements — the `curl`
UPDATE, the credential DELETE and the first INSERT — remain applied: the
final state differs from both the initial state and the fully-applied
state. -/
theorem claim_C6_counterexample :
    (update_account_credentials failAt3 "u1" "c1" [("a", "1"), ("b", "2")] dbC).2 = false
    ∧ (update_account_credentials failAt3 "u1" "c1" [("a", "1"), ("b", "2")] dbC).1 ≠ dbC
    ∧ (update_account_credentials failAt3 "u1" "c1" [("a", "1"), ("b", "2")] dbC).1
        ≠ (update_account_credentials (fun _ => false) "u1" "c1" [("a", "1"), ("b", "2")] dbC).1
    ∧ (update_account_credentials failAt3 "u1" "c1" [("a", "1"), ("b", "2")] dbC).1.credentials
        = [⟨"u1", "a", "1"⟩] := by
  decide

/-- C6 amended: the payment-sync operations are transactional — whenever one
of their statements fails, the returned state is the unchanged input — but
the credential save/update operations are not: a failure of
`update_account_credentials`'s first credential INSERT (statement 2) still
leaves the committed `curl` UPDATE and credential DELETE in place. -/
theorem claim_C6_amended_transaction_boundary :
    (∀ (fail : Nat → Bool) (u : String) (p : NaverPayment) (db : DB),
      (save_naver_payment_tx fail u p db).2 = false →
        (save_naver_payment_tx fail u p db).1 = db)
    ∧ (∀ (fail : Nat → Bool) (u : String) (q : CoupangPayment) (db : DB),
      (save_coupang_payment_tx fail u q db).2 = false →
        (save_coupang_payment_tx fail u q db).1 = db)
    ∧ (∀ (fail : Nat → Bool) (userId curl k v : String)
        (rest : List (String × String)) (db : DB),
      fail 0 = false → fail 1 = false → fail 2 = true →
        update_account_credentials fail userId curl ((k, v) :: rest) db
          = ({ db with
                users := db.users.map
                  (fun u => if u.id == userId then { u with curl := curl } else u),
                credentials := db.credentials.filter (fun c => !(c.userId == userId)) },
              false)) :=
  ⟨save_naver_payment_tx_rollback, save_coupang_payment_tx_rollback,
   update_account_credentials_partial⟩

/-- C6 witness: a failing sync rolls back to the exact input state, while a
failing credential update leaves the partial state. -/
theorem claim_C6_witness :
    (save_naver_payment_tx (fun _ => true) "u1" sampleNaverPayment dbC).1 = dbC
    ∧ update_account_credentials failAt2 "u1" "c9" [("a", "1")] dbC
        = ({ dbC with
              users := dbC.users.map
                (fun u => if u.id == "u1" then { u with curl := "c9" } else u),
              credentials := dbC.credentials.filter (fun c => !(c.userId == "u1")) },
            false) := by
  constructor
  · exact claim_C6_amended_transaction_boundary.1 (fun _ => true) "u1" sampleNaverPayment dbC
      (by decide)
  · exact claim_C6_amended_transaction_boundary.2.2 failAt2 "u1" "c9" "a" "1" [] dbC
      (by decide) (by decide) (by decide)

/-- C7: create and update behave as claimed — each appends exactly one
history row, after-only with the created entry for create, before (columns
only) and after (entry + tags) for update, with the tag set replaced in the
same transaction — but delete does NOT leave a before-only row behind: the
entry DELETE's declared cascade on `tbl_ledger_history.entry_id` (schema
line 370) removes the just-appended delete row together with all earlier
history, so after the delete transaction zero history rows remain. -/
theorem claim_C7_history_per_mutation :
    (create_ledger_entry "T1" "e1" "a1" sampleEntry dbA).ledgerHistory
      = [⟨"e1", "create", none, some ⟨entryRowOfInput "e1" "a1" sampleEntry, sampleEntry.tags⟩⟩]
    ∧ (create_ledger_entry "T1" "e1" "a1" sampleEntry dbA).ledgerTags
      = [⟨"e1", "tagA"⟩, ⟨"e1", "tagB"⟩]
    ∧ (update_ledger_entry "T2" "e1" sampleEntry2
        (create_ledger_entry "T1" "e1" "a1" sampleEntry dbA)).ledgerHistory
      = [⟨"e1", "create", none, some ⟨entryRowOfInput "e1" "a1" sampleEntry, sampleEntry.tags⟩⟩,
         ⟨"e1", "update", some (entryRowOfInput "e1" "a1" sampleEntry),
          some ⟨entryRowOfInput "e1" "a1" sampleEntry2, sampleEntry2.tags⟩⟩]
    ∧ (update_ledger_entry "T2" "e1" sampleEntry2
        (create_ledger_entry "T1" "e1" "a1" sampleEntry dbA)).ledgerTags
      = [⟨"e1", "tagC"⟩]
    ∧ (delete_ledger_entry "T3" "e1" (update_ledger_entry "T2" "e1" sampleEntry2
        (create_ledger_entry "T1" "e1" "a1" sampleEntry dbA))).ledgerHistory = []
    ∧ (delete_ledger_entry "T3" "e1" (update_ledger_entry "T2" "e1" sampleEntry2
        (create_ledger_entry "T1" "e1" "a1" sampleEntry dbA))).ledgerEntries = [] := by
  decide

/-- C9: history rows do not survive the deletion of the entry they
describe.  After `create` the row is retrievable by entry id, but
`delete_ledger_entry` — via the `ON DELETE CASCADE` declared on
`tbl_ledger_history.entry_id` — removes every history row of the entry,
including the freshly appended delete row, so `list_ledger_history`
returns nothing. -/
theorem claim_C9_history_rows_cascade_away :
    (list_ledger_history "T2" "e1" (create_ledger_entry "T1" "e1" "a1" sampleEntry dbA)).1
      = [⟨"e1", "create", none, some ⟨entryRowOfInput "e1" "a1" sampleEntry, sampleEntry.tags⟩⟩]
    ∧ (list_ledger_history "T3" "e1" (delete_ledger_entry "T2" "e1"
        (create_ledger_entry "T1" "e1" "a1" sampleEntry dbA))).1 = []
    ∧ (delete_ledger_entry "T2" "e1"
        (create_ledger_entry "T1" "e1" "a1" sampleEntry dbA)).ledgerHistory = [] := by
  decide

/-- C8 counterexample: `delete_ledger_account` performs no expiry purge:
deleting account `aNew` completes while account `aOld`, whose password
expiry lies in the past, still carries its hash — so the claim's
post-state does not hold for every ledger-account operation. -/
theorem claim_C8_counterexample :
    (delete_ledger_account "aNew" dbExpired).ledgerAccounts
      = [⟨"aOld", "old", some "5f4dcc3b", some "2020-01-01T00:00:00+00:00"⟩]
    ∧ expiredAt "2024-06-01T00:00:00+00:00"
        ⟨"aOld", "old", some "5f4dcc3b", some "2020-01-01T00:00:00+00:00"⟩ = true
    ∧ ¬ noExpiredPasswords "2024-06-01T00:00:00+00:00"
        (delete_ledger_account "aNew" dbExpired) := by
  refine ⟨by decide, by decide, ?_⟩
  intro h
  have h2 := h ⟨"aOld", "old", some "5f4dcc3b", some "2020-01-01T00:00:00+00:00"⟩ (by decide)
  revert h2
  decide

/-- C8 amended: password expiry is applied at the start of every
ledger-account and ledger-entry operation EXCEPT `delete_ledger_account`;
after any other (committed) call of the family no account with a past
expiry retains a hash or expiry, and no modelled operation outside the
family touches `tbl_ledger_account` at all. -/
theorem claim_C8_amended_purge_on_touch (now expiresAt nickname hash accountId entryId
      entryIdC yearMonth uid provider aliasName curl : String)
    (pwh : Option String) (entry entryC : LedgerEntryInput) (db : DB) (old : LedgerEntryRow)
    (fail : Nat → Bool) (headers : List (String × String))
    (p : NaverPayment) (q : CoupangPayment)
    (hexp : strLt expiresAt now = false) :
    noExpiredPasswords now (check_and_reset_expired_passwords now db)
    ∧ noExpiredPasswords now (create_ledger_account now expiresAt accountId nickname pwh db)
    ∧ noExpiredPasswords now (list_ledger_accounts now db).2
    ∧ noExpiredPasswords now (verify_ledger_password now accountId hash db).2
    ∧ noExpiredPasswords now (update_ledger_password now expiresAt accountId hash db)
    ∧ noExpiredPasswords now (check_password_expiry now db)
    ∧ ((check_and_reset_expired_passwords now db).ledgerAccounts.any
          (fun a => a.id == accountId) = true →
        db.ledgerEntries.any (fun e => e.id == entryIdC) = false →
        hasDup entryC.tags = false →
        noExpiredPasswords now (create_ledger_entry now entryIdC accountId entryC db))
    ∧ (db.ledgerEntries.find? (fun e => e.id == entryId) = some old →
        hasDup entry.tags = false →
        noExpiredPasswords now (update_ledger_entry now entryId entry db))
    ∧ (db.ledgerEntries.any (fun e => e.id == entryId) = true →
        noExpiredPasswords now (delete_ledger_entry now entryId db))
    ∧ noExpiredPasswords now (list_ledger_entries now accountId yearMonth db).2
    ∧ noExpiredPasswords now (get_ledger_entry now entryId db).2
    ∧ noExpiredPasswords now (list_ledger_history now entryId db).2
    ∧ (delete_user uid db).ledgerAccounts = db.ledgerAccounts
    ∧ ((save_naver_payment_tx fail uid p db).1).ledgerAccounts = db.ledgerAccounts
    ∧ ((save_coupang_payment_tx fail uid q db).1).ledgerAccounts = db.ledgerAccounts
    ∧ ((save_account fail uid provider aliasName curl headers db).1).ledgerAccounts
        = db.ledgerAccounts
    ∧ ((update_account_credentials fail uid curl headers db).1).ledgerAccounts
        = db.ledgerAccounts := by
  have hverify : (verify_ledger_password now accountId hash db).2
      = check_and_reset_expired_passwords now db := by
    simp only [verify_ledger_password]
    cases List.find? (fun a => a.id == accountId)
      (check_and_reset_expired_passwords now db).ledgerAccounts <;> rfl
  have hget : (get_ledger_entry now entryId db).2
      = check_and_reset_expired_passwords now db := by
    simp only [get_ledger_entry]
    cases List.find? (fun e => e.id == entryId)
      (check_and_reset_expired_passwords now db).ledgerEntries <;> rfl
  refine ⟨purge_noExpired now db,
    create_ledger_account_noExpired now expiresAt accountId nickname pwh db hexp,
    purge_noExpired now db,
    ?_,
    update_ledger_password_noExpired now expiresAt accountId hash db hexp,
    purge_noExpired now db,
    ?_, ?_, ?_,
    purge_noExpired now db,
    ?_,
    purge_noExpired now db,
    delete_user_ledger_frame uid db,
    save_naver_payment_tx_ledger_frame fail uid p db,
    save_coupang_payment_tx_ledger_frame fail uid q db,
    save_account_ledger_frame fail uid provider aliasName curl headers db,
    update_account_credentials_ledger_frame fail uid curl headers db⟩
  · rw [hverify]
    exact purge_noExpired now db
  · intro h1 h2 h3
    exact create_ledger_entry_noExpired now entryIdC accountId entryC db h1 h2 h3
  · intro h1 h2
    exact update_ledger_entry_noExpired now entryId entry db old h1 h2
  · intro h1
    exact delete_ledger_entry_noExpired now entryId db h1
  · rw [hget]
    exact purge_noExpired now db

/-- C8 witness: every family operation applied to a concrete store (one
account, one entry) establishes the no-expired-passwords invariant, and the
modelled non-family operations leave `tbl_ledger_account` untouched. -/
theorem claim_C8_witness :
    noExpiredPasswords "2024-06-02" (check_and_reset_expired_passwords "2024-06-02"
      (create_ledger_entry "T1" "e1" "a1" sampleEntry dbA))
    ∧ noExpiredPasswords "2024-06-02" (create_ledger_account "2024-06-02" "2024-07-02"
        "a1" "nick" (some "deadbeef") (create_ledger_entry "T1" "e1" "a1" sampleEntry dbA))
    ∧ noExpiredPasswords "2024-06-02" (list_ledger_accounts "2024-06-02"
        (create_ledger_entry "T1" "e1" "a1" sampleEntry dbA)).2
    ∧ noExpiredPasswords "2024-06-02" (verify_ledger_password "2024-06-02" "a1" "deadbeef"
        (create_ledger_entry "T1" "e1" "a1" sampleEntry dbA)).2
    ∧ noExpiredPasswords "2024-06-02" (update_ledger_password "2024-06-02" "2024-07-02"
        "a1" "deadbeef" (create_ledger_entry "T1" "e1" "a1" sampleEntry dbA))
    ∧ noExpiredPasswords "2024-06-02" (check_password_expiry "2024-06-02"
        (create_ledger_entry "T1" "e1" "a1" sampleEntry dbA))
    ∧ noExpiredPasswords "2024-06-02" (create_ledger_entry "2024-06-02" "e2" "a1" sampleEntry2
        (create_ledger_entry "T1" "e1" "a1" sampleEntry dbA))
    ∧ noExpiredPasswords "2024-06-02" (update_ledger_entry "2024-06-02" "e1" sampleEntry2
        (create_ledger_entry "T1" "e1" "a1" sampleEntry dbA))
    ∧ noExpiredPasswords "2024-06-02" (delete_ledger_entry "2024-06-02" "e1"
        (create_ledger_entry "T1" "e1" "a1" sampleEntry dbA))
    ∧ noExpiredPasswords "2024-06-02" (list_ledger_entries "2024-06-02" "a1" "2024-03"
        (create_ledger_entry "T1" "e1" "a1" sampleEntry dbA)).2
    ∧ noExpiredPasswords "2024-06-02" (get_ledger_entry "2024-06-02" "e1"
        (create_ledger_entry "T1" "e1" "a1" sampleEntry dbA)).2
    ∧ noExpiredPasswords "2024-06-02" (list_ledger_history "2024-06-02" "e1"
        (create_ledger_entry "T1" "e1" "a1" sampleEntry dbA)).2
    ∧ (delete_user "u1" (create_ledger_entry "T1" "e1" "a1" sampleEntry dbA)).ledgerAccounts
        = (create_ledger_entry "T1" "e1" "a1" sampleEntry dbA).ledgerAccounts
    ∧ ((save_naver_payment_tx failAt2 "u1" sampleNaverPayment
        (create_ledger_entry "T1" "e1" "a1" sampleEntry dbA)).1).ledgerAccounts
        = (create_ledger_entry "T1" "e1" "a1" sampleEntry dbA).ledgerAccounts
    ∧ ((save_coupang_payment_tx failAt2 "u1" sampleCoupangPayment
        (create_ledger_entry "T1" "e1" "a1" sampleEntry dbA)).1).ledgerAccounts
        = (create_ledger_entry "T1" "e1" "a1" sampleEntry dbA).ledgerAccounts
    ∧ ((save_account failAt2 "u9" "naver" "me" "c1" [("k", "v")]
        (create_ledger_entry "T1" "e1" "a1" sampleEntry dbA)).1).ledgerAccounts
        = (create_ledger_entry "T1" "e1" "a1" sampleEntry dbA).ledgerAccounts
    ∧ ((update_account_credentials failAt2 "u9" "c1" [("k", "v")]
        (create_ledger_entry "T1" "e1" "a1" sampleEntry dbA)).1).ledgerAccounts
        = (create_ledger_entry "T1" "e1" "a1" sampleEntry dbA).ledgerAccounts := by
  obtain ⟨h1, h2, h3, h4, h5, h6, h7, h8, h9, h10, h11, h12, h13, h14, h15, h16, h17⟩ :=
    claim_C8_amended_purge_on_touch "2024-06-02" "2024-07-02" "nick" "deadbeef" "a1" "e1"
      "e2" "2024-03" "u1" "naver" "me" "c1" (some "deadbeef") sampleEntry2 sampleEntry2
      (create_ledger_entry "T1" "e1" "a1" sampleEntry dbA)
      (entryRowOfInput "e1" "a1" sampleEntry) failAt2 [("k", "v")]
      sampleNaverPayment sampleCoupangPayment (by decide)
  exact ⟨h1, h2, h3, h4, h5, h6, h7 (by decide) (by decide) (by decide),
    h8 (by decide) (by decide), h9 (by decide), h10, h11, h12, h13, h14, h15, h16, h17⟩

theorem length_sqlLimit_le {n : Int} (hn : 0 ≤ n) (l : List α) :
    (sqlLimit n l).length ≤ n.toNat := by
  unfold sqlLimit
  rw [if_neg (by omega)]
  calc (l.take n.toNat).length = min n.toNat l.length := List.length_take _ _
  _ ≤ n.toNat := Nat.min_le_left _ _

theorem searchLe_total (a b : SearchResultItem) :
    (!(strLt a.paidAt b.paidAt)) = false → (!(strLt b.paidAt a.paidAt)) = true := by
  intro h
  have h2 : strLt a.paidAt b.paidAt = true := by simpa using h
  simp [strLt_asymm h2]

theorem searchLe_trans (a b c : SearchResultItem) :
    (!(strLt a.paidAt b.paidAt)) = true → (!(strLt b.paidAt c.paidAt)) = true →
    (!(strLt a.paidAt c.paidAt)) = true := by
  intro h1 h2
  have h1' : strLt a.paidAt b.paidAt = false := by simpa using h1
  have h2' : strLt b.paidAt c.paidAt = false := by simpa using h2
  simp [strLt_neg_trans h1' h2']

theorem naver_search_rows_length_le (query : String) {L : Int} (db : DB) (hpos : 0 ≤ L) :
    (naver_search_rows query L db).length ≤ L.toNat := by
  simp only [naver_search_rows]
  exact length_sqlLimit_le hpos _

theorem coupang_search_rows_length_le (query : String) {L : Int} (db : DB) (hpos : 0 ≤ L) :
    (coupang_search_rows query L db).length ≤ L.toNat := by
  simp only [coupang_search_rows]
  exact length_sqlLimit_le hpos _

/-- C10: with `L` the requested limit (50 when unspecified, within the i64
range), the cross-provider search returns at most `L` items sorted by date
descending, reports `total` = the number of candidate rows gathered by the
two per-provider queries (each capped at `L`) before truncation, and so
`total` may exceed the returned count but never `2·L`. -/
theorem claim_C10_search_limit_total_shape (query : String) (limit : Option Int) (db : DB)
    (hpos : 0 ≤ limit.getD 50) (hrange : limit.getD 50 < 2 ^ 63) :
    (search_products query limit db).items.length ≤ (limit.getD 50).toNat
    ∧ (search_products query limit db).items.Pairwise
        (fun a b => strLt a.paidAt b.paidAt = false)
    ∧ (search_products query limit db).total
        = (naver_search_rows query (limit.getD 50) db).length
          + (coupang_search_rows query (limit.getD 50) db).length
    ∧ (naver_search_rows query (limit.getD 50) db).length ≤ (limit.getD 50).toNat
    ∧ (coupang_search_rows query (limit.getD 50) db).length ≤ (limit.getD 50).toNat
    ∧ (search_products query limit db).total ≤ 2 * (limit.getD 50).toNat
    ∧ (search_products query limit db).items.length ≤ (search_products query limit db).total := by
  have husize : usizeOfInt (limit.getD 50) = (limit.getD 50).toNat := by
    unfold usizeOfInt
    rw [Int.emod_eq_of_lt hpos (lt_trans hrange (by norm_num))]
  have hN := naver_search_rows_length_le query db hpos (L := limit.getD 50)
  have hC := coupang_search_rows_length_le query db hpos (L := limit.getD 50)
  have htotal : (search_products query limit db).total
      = (naver_search_rows query (limit.getD 50) db).length
        + (coupang_search_rows query (limit.getD 50) db).length := by
    simp only [search_products]
    rw [length_sortBy, List.length_append]
  have hsortedAll : (sortBy (fun a b => !(strLt a.paidAt b.paidAt))
      (naver_search_rows query (limit.getD 50) db
        ++ coupang_search_rows query (limit.getD 50) db)).Pairwise
      (fun a b => strLt a.paidAt b.paidAt = false) := by
    have hp := pairwise_sortBy searchLe_total searchLe_trans
      (naver_search_rows query (limit.getD 50) db
        ++ coupang_search_rows query (limit.getD 50) db)
    exact hp.imp (fun h => by simpa using h)
  have hlen : (search_products query limit db).items.length
      ≤ (search_products query limit db).total := by
    rw [htotal]
    simp only [search_products]
    split
    · calc _ = min _ _ := List.length_take _ _
      _ ≤ (sortBy (fun a b => !(strLt a.paidAt b.paidAt))
            (naver_search_rows query (limit.getD 50) db
              ++ coupang_search_rows query (limit.getD 50) db)).length := Nat.min_le_right _ _
      _ = _ := by rw [length_sortBy, List.length_append]
    · rw [length_sortBy, List.length_append]
  refine ⟨?_, ?_, htotal, hN, hC, ?_, hlen⟩
  · simp only [search_products, husize]
    split
    · calc _ = min _ _ := List.length_take _ _
      _ ≤ _ := Nat.min_le_left _ _
    · next hnot =>
      rw [length_sortBy, List.length_append]
      have : ¬ (sortBy (fun a b => !(strLt a.paidAt b.paidAt))
          (naver_search_rows query (limit.getD 50) db
            ++ coupang_search_rows query (limit.getD 50) db)).length
          > (limit.getD 50).toNat := hnot
      rw [length_sortBy, List.length_append] at this
      omega
  · simp only [search_products]
    split
    · exact List.Pairwise.sublist (List.take_sublist _ _) hsortedAll
    · exact hsortedAll
  · rw [htotal]
    omega

/-- C10 witness: the default-limit search over a concrete store with three
matching line items. -/
theorem claim_C10_witness :
    (search_products "a" none dbSearch).items.length ≤ ((none : Option Int).getD 50).toNat
    ∧ (search_products "a" none dbSearch).items.Pairwise
        (fun a b => strLt a.paidAt b.paidAt = false)
    ∧ (search_products "a" none dbSearch).total
        = (naver_search_rows "a" ((none : Option Int).getD 50) dbSearch).length
          + (coupang_search_rows "a" ((none : Option Int).getD 50) dbSearch).length
    ∧ (search_products "a" none dbSearch).total = 3 :=
  have h := claim_C10_search_limit_total_shape "a" none dbSearch (by decide) (by decide)
  ⟨h.1, h.2.1, h.2.2.1, by decide⟩
